import Mathlib

/-!
Verification development for the ariba-mock repository.

The repository consists of three HTTP services:
 * `src/mcp-server/server.py` — a forwarding gateway translating tool
   invocations (`call_tool`) and a parallel REST facade (`api_*` handlers)
   into HTTP GET requests against two backends;
 * `src/mock/app.py` — the mock procurement data provider (in-memory
   tables with list/detail endpoints);
 * `src/risk/app.py` — the risk-scoring provider with a deterministic
   hash-based fallback for unknown supplier ids.

Each Python function relevant to the claims is embedded as an executable
Lean definition; stateful/effectful aspects (the outbound HTTP calls of
the gateway) are made explicit by logging the issued requests and by
passing the backend as a function parameter.
-/

/-! ## A small JSON value model (Python dicts/lists/scalars as sent over the wire) -/

inductive Json where
  | null
  | bool (b : Bool)
  | num (q : ℚ)
  | str (s : String)
  | arr (xs : List Json)
  | obj (fields : List (String × Json))

def spaces (n : Nat) : String := String.mk (List.replicate n ' ')

/-- Decimal rendering of a rational number.  The precise decimal formatting of
Python floats is not modelled (no claim depends on it); only the structure of
the serialized value matters. -/
def renderNum (q : ℚ) : String :=
  toString q.num ++ (if q.den = 1 then "" else "/" ++ toString q.den)

/-- Model of `json.dumps(result, indent=2)` (Python standard library):
pretty-prints a JSON value with two-space indentation, keys in insertion
order.  String escaping is elided (the repository data contains no
characters needing escapes); no claim inspects the rendered text, only
which JSON value is rendered. -/
def Json.render (pad : Nat) : Json → String
  | .null => "null"
  | .bool true => "true"
  | .bool false => "false"
  | .num q => renderNum q
  | .str s => "\"" ++ s ++ "\""
  | .arr [] => "[]"
  | .arr (x :: xs) =>
      "[\n" ++ String.intercalate ",\n"
        (((x :: xs).attach).map fun y => spaces (pad + 2) ++ Json.render (pad + 2) y.1)
      ++ "\n" ++ spaces pad ++ "]"
  | .obj [] => "\x7b\x7d"
  | .obj (f :: fs) =>
      "\x7b\n" ++ String.intercalate ",\n"
        (((f :: fs).attach).map fun g =>
          spaces (pad + 2) ++ "\"" ++ g.1.1 ++ "\": " ++ Json.render (pad + 2) g.1.2)
      ++ "\n" ++ spaces pad ++ "\x7d"
termination_by j => sizeOf j
decreasing_by
  · have h1 := List.sizeOf_lt_of_mem y.2
    simp only [Json.arr.sizeOf_spec]
    omega
  · have h1 := List.sizeOf_lt_of_mem g.2
    have h2 : sizeOf g.1.2 < sizeOf g.1 := by
      obtain ⟨a, b⟩ := g.1
      simp
    simp only [Json.obj.sizeOf_spec]
    omega

/-- Shorthand for `json.dumps(result, indent=2)` as used throughout `server.py`. -/
def Json.dumps (j : Json) : String := Json.render 0 j

/-! ## Gateway (`src/mcp-server/server.py`) -/

namespace Gateway

/-- Which backend base URL an outbound request targets:
`MOCK_API_URL` (`call_mock_api`) or `RISK_API_URL` (`call_risk_api`). -/
inductive Backend where
  | mock
  | risk
deriving DecidableEq

/-- One outbound HTTP GET issued by the gateway: backend selector, endpoint
path, and query parameters (the `params` dict handed to `http_client.get`;
`params=None` and `params={}` both produce an empty query string and are
both modelled as `[]`). -/
structure OutRequest where
  backend : Backend
  endpoint : String
  params : List (String × String)
deriving DecidableEq

/-- Outcome of the outbound HTTP exchange as seen by `call_mock_api` /
`call_risk_api`: either a response with a status code and JSON body, or a
transport-level failure (timeout, connection refused, ...) raised by httpx
as an `httpx.HTTPError` carrying a description string. -/
inductive HttpResult where
  | ok (status : Nat) (body : Json)
  | transportError (desc : String)

/-- The network environment: what the backend answers for each request. -/
abbrev Net := OutRequest → HttpResult

/-- A failed exchange: transport error, or a non-2xx status (for which
`response.raise_for_status()` raises `httpx.HTTPStatusError`, a subclass of
`httpx.HTTPError`; httpx treats exactly 200–299 as success). -/
def isFailure : HttpResult → Bool
  | .transportError _ => true
  | .ok status _ => !(200 ≤ status && status < 300)

/-- Message of the `httpx.HTTPStatusError` raised by
`response.raise_for_status()` on a non-2xx status.  The text is produced by
the httpx library; only its existence matters to the claims. -/
def httpStatusErrorMessage (status : Nat) : String :=
  "HTTP status error " ++ toString status

/-- Python dict argument mapping: `arguments.get(key)`. -/
abbrev Args := String → Option String

/-- Python truthiness of `arguments.get(key)`: `None` and the empty string
are falsy, any other string is truthy. -/
def truthy : Option String → Option String
  | none => none
  | some s => if s = "" then none else some s

/-- The recurring two-line pattern
`if arguments.get(k): params[k] = arguments[k]` of `call_tool` and the
`api_*` handlers: append the binding only when the value is present and
non-empty.  (The keys added within one branch are pairwise distinct, so a
dict insertion is exactly an append.) -/
def addIf (ps : List (String × String)) (key : String) (v : Option String) :
    List (String × String) :=
  match truthy v with
  | some s => ps ++ [(key, s)]
  | none => ps

/-- f-string interpolation of a value obtained with `arguments.get(key)`:
Python renders `None` as the literal string `"None"`. -/
def pyStr : Option String → String
  | none => "None"
  | some s => s

/-- Common body of `call_mock_api` and `call_risk_api`: issue one GET with a
30s timeout, `raise_for_status`, parse JSON; any `httpx.HTTPError` is caught
and turned into `{"error": str(e)}`.  The returned pair is the list of
requests actually issued (always exactly one) together with the resulting
JSON value. -/
def apiCall (net : Net) (b : Backend) (endpoint : String)
    (params : List (String × String)) : List OutRequest × Json :=
  let req : OutRequest := ⟨b, endpoint, params⟩
  ([req],
    match net req with
    | .transportError desc => Json.obj [("error", Json.str desc)]
    | .ok status body =>
        if 200 ≤ status && status < 300 then body
        else Json.obj [("error", Json.str (httpStatusErrorMessage status))])

/-- Model of `call_mock_api(endpoint, params)` — GET against `MOCK_API_URL`. -/
def call_mock_api (net : Net) (endpoint : String)
    (params : List (String × String)) : List OutRequest × Json :=
  apiCall net .mock endpoint params

/-- Model of `call_risk_api(endpoint, params)` — GET against `RISK_API_URL`. -/
def call_risk_api (net : Net) (endpoint : String)
    (params : List (String × String)) : List OutRequest × Json :=
  apiCall net .risk endpoint params

/-- One `TextContent(type="text", text=...)` element of an MCP result. -/
structure TextContent where
  type : String
  text : String
deriving DecidableEq

/-- Wrap a backend call outcome the way every recognized branch of
`call_tool` does: `[TextContent(type="text", text=json.dumps(result, indent=2))]`. -/
def wrap (r : List OutRequest × Json) : List OutRequest × List TextContent :=
  (r.1, [⟨"text", Json.dumps r.2⟩])

/-- Model of `call_tool(name, arguments)` — the gateway tool dispatcher
(`server.py` lines 272–384), an if/elif chain on the tool name.  The first
component of the result is the list of outbound requests issued while
handling the call; the second is the returned MCP content. -/
def call_tool (net : Net) (name : String) (arguments : Args) :
    List OutRequest × List TextContent :=
  if name == "get_dashboard_summary" then
    wrap (call_mock_api net "/api/dashboard/summary" [])
  else if name == "list_suppliers" then
    let params := addIf (addIf [] "status" (arguments "status"))
      "category" (arguments "category")
    wrap (call_mock_api net "/api/suppliers" params)
  else if name == "get_supplier" then
    let supplier_id := arguments "supplier_id"
    wrap (call_mock_api net ("/api/suppliers/" ++ pyStr supplier_id) [])
  else if name == "list_purchase_orders" then
    let params := addIf (addIf [] "status" (arguments "status"))
      "supplier_id" (arguments "supplier_id")
    wrap (call_mock_api net "/api/purchase-orders" params)
  else if name == "get_purchase_order" then
    let po_id := arguments "po_id"
    wrap (call_mock_api net ("/api/purchase-orders/" ++ pyStr po_id) [])
  else if name == "list_requisitions" then
    let params := addIf (addIf [] "status" (arguments "status"))
      "requester" (arguments "requester")
    wrap (call_mock_api net "/api/requisitions" params)
  else if name == "get_requisition" then
    let req_id := arguments "req_id"
    wrap (call_mock_api net ("/api/requisitions/" ++ pyStr req_id) [])
  else if name == "list_invoices" then
    let params := addIf (addIf [] "status" (arguments "status"))
      "po_number" (arguments "po_number")
    wrap (call_mock_api net "/api/invoices" params)
  else if name == "get_invoice" then
    let invoice_id := arguments "invoice_id"
    wrap (call_mock_api net ("/api/invoices/" ++ pyStr invoice_id) [])
  else if name == "list_contracts" then
    let params := addIf (addIf [] "status" (arguments "status"))
      "supplier_name" (arguments "supplier_name")
    wrap (call_mock_api net "/api/contracts" params)
  else if name == "get_contract" then
    let contract_id := arguments "contract_id"
    wrap (call_mock_api net ("/api/contracts/" ++ pyStr contract_id) [])
  else if name == "list_proposals" then
    let params := addIf (addIf (addIf [] "rfp_id" (arguments "rfp_id"))
      "supplier_id" (arguments "supplier_id")) "status" (arguments "status")
    wrap (call_mock_api net "/api/proposals" params)
  else if name == "get_proposal" then
    let proposal_id := arguments "proposal_id"
    wrap (call_mock_api net ("/api/proposals/" ++ pyStr proposal_id) [])
  else if name == "list_rfps" then
    let params := addIf [] "status" (arguments "status")
    wrap (call_mock_api net "/api/rfps" params)
  else if name == "get_rfp" then
    let rfp_id := arguments "rfp_id"
    wrap (call_mock_api net ("/api/rfps/" ++ pyStr rfp_id) [])
  else if name == "risk_get_score" then
    let supplier_id := arguments "supplier_id"
    wrap (call_risk_api net ("/api/risk/score/" ++ pyStr supplier_id) [])
  else
    ([], [⟨"text", "Error: Unknown tool \x27" ++ name ++ "\x27"⟩])

/-- The fixed closed set of 16 tool names recognized by `call_tool`
(also the names declared by `list_tools`). -/
def recognized_tools : List String :=
  ["get_dashboard_summary", "list_suppliers", "get_supplier",
   "list_purchase_orders", "get_purchase_order", "list_requisitions",
   "get_requisition", "list_invoices", "get_invoice", "list_contracts",
   "get_contract", "list_proposals", "get_proposal", "list_rfps",
   "get_rfp", "risk_get_score"]

/-- The list tools together with their declared optional filter arguments
(the `inputSchema` properties declared in `list_tools`, which coincide with
the keys each `call_tool` branch forwards). -/
def list_tool_filters : List (String × List String) :=
  [("list_suppliers", ["status", "category"]),
   ("list_purchase_orders", ["status", "supplier_id"]),
   ("list_requisitions", ["status", "requester"]),
   ("list_invoices", ["status", "po_number"]),
   ("list_contracts", ["status", "supplier_name"]),
   ("list_proposals", ["rfp_id", "supplier_id", "status"]),
   ("list_rfps", ["status"])]

/-- The detail tools: tool name, backend selector, fixed path template
stem, and the name of the single path argument substituted into it. -/
def detail_tools : List (String × Backend × String × String) :=
  [("get_supplier", .mock, "/api/suppliers/", "supplier_id"),
   ("get_purchase_order", .mock, "/api/purchase-orders/", "po_id"),
   ("get_requisition", .mock, "/api/requisitions/", "req_id"),
   ("get_invoice", .mock, "/api/invoices/", "invoice_id"),
   ("get_contract", .mock, "/api/contracts/", "contract_id"),
   ("get_proposal", .mock, "/api/proposals/", "proposal_id"),
   ("get_rfp", .mock, "/api/rfps/", "rfp_id"),
   ("risk_get_score", .risk, "/api/risk/score/", "supplier_id")]

/-! ### REST facade (`/api/v1/...` handlers, `server.py` lines 430–551).
List handlers read `request.query_params.get(k)` (modelled, like the tool
arguments, as an `Args` mapping); detail handlers read the mandatory
`request.path_params[...]` segment (a plain `String`).  Each returns the
JSON value passed to `JSONResponse`, alongside the log of issued requests. -/

def api_dashboard (net : Net) : List OutRequest × Json :=
  call_mock_api net "/api/dashboard/summary" []

def api_suppliers (net : Net) (query_params : Args) : List OutRequest × Json :=
  let params := addIf (addIf [] "status" (query_params "status"))
    "category" (query_params "category")
  call_mock_api net "/api/suppliers" params

def api_supplier_detail (net : Net) (supplier_id : String) : List OutRequest × Json :=
  call_mock_api net ("/api/suppliers/" ++ supplier_id) []

def api_purchase_orders (net : Net) (query_params : Args) : List OutRequest × Json :=
  let params := addIf (addIf [] "status" (query_params "status"))
    "supplier_id" (query_params "supplier_id")
  call_mock_api net "/api/purchase-orders" params

def api_purchase_order_detail (net : Net) (po_id : String) : List OutRequest × Json :=
  call_mock_api net ("/api/purchase-orders/" ++ po_id) []

def api_requisitions (net : Net) (query_params : Args) : List OutRequest × Json :=
  let params := addIf (addIf [] "status" (query_params "status"))
    "requester" (query_params "requester")
  call_mock_api net "/api/requisitions" params

def api_requisition_detail (net : Net) (req_id : String) : List OutRequest × Json :=
  call_mock_api net ("/api/requisitions/" ++ req_id) []

def api_invoices (net : Net) (query_params : Args) : List OutRequest × Json :=
  let params := addIf (addIf [] "status" (query_params "status"))
    "po_number" (query_params "po_number")
  call_mock_api net "/api/invoices" params

def api_invoice_detail (net : Net) (invoice_id : String) : List OutRequest × Json :=
  call_mock_api net ("/api/invoices/" ++ invoice_id) []

def api_contracts (net : Net) (query_params : Args) : List OutRequest × Json :=
  let params := addIf (addIf [] "status" (query_params "status"))
    "supplier_name" (query_params "supplier_name")
  call_mock_api net "/api/contracts" params

def api_contract_detail (net : Net) (contract_id : String) : List OutRequest × Json :=
  call_mock_api net ("/api/contracts/" ++ contract_id) []

def api_proposals (net : Net) (query_params : Args) : List OutRequest × Json :=
  let params := addIf (addIf (addIf [] "rfp_id" (query_params "rfp_id"))
    "supplier_id" (query_params "supplier_id")) "status" (query_params "status")
  call_mock_api net "/api/proposals" params

def api_proposal_detail (net : Net) (proposal_id : String) : List OutRequest × Json :=
  call_mock_api net ("/api/proposals/" ++ proposal_id) []

def api_rfps (net : Net) (query_params : Args) : List OutRequest × Json :=
  let params := addIf [] "status" (query_params "status")
  call_mock_api net "/api/rfps" params

def api_rfp_detail (net : Net) (rfp_id : String) : List OutRequest × Json :=
  call_mock_api net ("/api/rfps/" ++ rfp_id) []

def api_risk_score (net : Net) (supplier_id : String) : List OutRequest × Json :=
  call_risk_api net ("/api/risk/score/" ++ supplier_id) []

end Gateway

/-! ## Mock procurement data provider (`src/mock/app.py`) -/

namespace MockApi

/-- Python `s.lower()` (ASCII case folding, which covers all fixture data). -/
def strLower (s : String) : String := String.mk (s.data.map Char.toLower)

/-- Python substring test `needle in hay`. -/
def strContains (needle hay : String) : Bool := decide (needle.data <:+: hay.data)

/-- Flask `request.args.get(k)` truthiness, identical to the gateway truthiness:
absent and empty-string query parameters are falsy. -/
def truthy : Option String → Option String := Gateway.truthy

structure Supplier where
  id : String
  name : String
  status : String
  category : String
  country : String
  contact_name : String
  contact_email : String
  contact_phone : String
  risk_score : ℚ
  created_date : String
  last_activity_date : Option String
deriving DecidableEq

structure Item where
  description : String
  quantity : ℕ
  unit_price : ℚ
deriving DecidableEq

structure PurchaseOrder where
  id : String
  order_number : String
  supplier_id : String
  supplier_name : String
  status : String
  total_amount : ℚ
  currency : String
  created_date : String
  contract_reference : Option String
  items : List Item
  notes : Option String
  anomaly_flag : Option String
deriving DecidableEq

structure Requisition where
  id : String
  requisition_number : String
  requester : String
  status : String
  total_amount : ℚ
  currency : String
  created_date : String
  approval_status : String
  description : String
deriving DecidableEq

structure Invoice where
  id : String
  invoice_number : String
  po_number : String
  supplier_id : String
  supplier_name : String
  amount : ℚ
  currency : String
  status : String
  due_date : String
  created_date : String
  paid_date : Option String
  notes : Option String
  anomaly_flag : Option String
  rejection_reason : Option String
deriving DecidableEq

structure Terms where
  payment_terms : String
  renewal : String
  sla_uptime : String
  support_hours : String
deriving DecidableEq

structure Contract where
  id : String
  contract_number : String
  title : String
  supplier_id : String
  supplier_name : String
  start_date : String
  end_date : String
  value : ℚ
  currency : String
  status : String
  terms : Terms
  total_po_value : Option ℚ
  anomaly_flag : Option String
deriving DecidableEq

structure Requirement where
  id : String
  category : String
  description : String
  priority : String
  weight : ℕ
deriving DecidableEq

structure RFP where
  id : String
  title : String
  status : String
  deadline : String
  budget_max : ℚ
  currency : String
  requirements : List Requirement
deriving DecidableEq

structure BreakdownItem where
  item : String
  amount : ℚ
deriving DecidableEq

structure Pricing where
  total : ℚ
  currency : String
  breakdown : List BreakdownItem
deriving DecidableEq

structure Sla where
  uptime : ℚ
  response_time_hours : ℚ
  resolution_time_hours : ℚ
  penalties : Bool
  penalty_details : String
deriving DecidableEq

structure Compliance where
  gdpr : Bool
  iso27001 : Bool
  soc2 : Bool
  notes : String
deriving DecidableEq

structure Coverage where
  requirement_id : String
  status : String
  notes : Option String
deriving DecidableEq

structure Proposal where
  id : String
  rfp_id : String
  supplier_id : String
  supplier_name : String
  status : String
  submitted_date : String
  pricing : Pricing
  sla : Sla
  compliance : Compliance
  functional_coverage : List Coverage
  delivery_weeks : ℕ
  validity_days : ℕ
deriving DecidableEq

/-! ### Fixture data (`generate_mock_data`, hardcoded literals) -/

def sup1000 : Supplier :=
  { id := "SUP-1000", name := "ERPMax Solutions", status := "Active",
    category := "ERP Software", country := "USA",
    contact_name := "Sarah Mitchell", contact_email := "sarah.mitchell@erpmax.com",
    contact_phone := "+1-555-0142", risk_score := 2.1,
    created_date := "2024-03-15T00:00:00", last_activity_date := none }

def sup1001 : Supplier :=
  { id := "SUP-1001", name := "IntegraPro Systems", status := "Active",
    category := "ERP Software", country := "USA",
    contact_name := "Michael Chen", contact_email := "m.chen@integrapro.com",
    contact_phone := "+1-555-0287", risk_score := 1.8,
    created_date := "2023-11-20T00:00:00", last_activity_date := none }

def sup1002 : Supplier :=
  { id := "SUP-1002", name := "CloudFirst ERP", status := "Active",
    category := "ERP Software", country := "USA",
    contact_name := "Jennifer Walsh", contact_email := "j.walsh@cloudfirsterp.com",
    contact_phone := "+1-555-0393", risk_score := 3.5,
    created_date := "2025-01-10T00:00:00", last_activity_date := none }

def sup1003 : Supplier :=
  { id := "SUP-1003", name := "ERP Max Solutions Inc", status := "Active",
    category := "ERP Software", country := "USA",
    contact_name := "Sarah Mitchell", contact_email := "s.mitchell@erpmax.com",
    contact_phone := "+1-555-0142", risk_score := 2.3,
    created_date := "2025-06-01T00:00:00", last_activity_date := none }

def sup1004 : Supplier :=
  { id := "SUP-1004", name := "Legacy Systems Corp", status := "Active",
    category := "Legacy Software", country := "USA",
    contact_name := "Robert Johnson", contact_email := "r.johnson@legacysystems.com",
    contact_phone := "+1-555-0199", risk_score := 7.5,
    created_date := "2019-03-01T00:00:00",
    last_activity_date := some "2023-12-15T00:00:00" }

def suppliers_db : List (String × Supplier) :=
  [("SUP-1000", sup1000), ("SUP-1001", sup1001), ("SUP-1002", sup1002),
   ("SUP-1003", sup1003), ("SUP-1004", sup1004)]

def po2024001 : PurchaseOrder :=
  { id := "PO-2024001", order_number := "PO-2024001", supplier_id := "SUP-1000",
    supplier_name := "ERPMax Solutions", status := "Closed", total_amount := 125000,
    currency := "USD", created_date := "2024-06-15T00:00:00", contract_reference := none,
    items := [⟨"ERP License - 50 users", 50, 2000⟩,
              ⟨"Implementation Services", 1, 25000⟩],
    notes := none, anomaly_flag := none }

def po2024002 : PurchaseOrder :=
  { id := "PO-2024002", order_number := "PO-2024002", supplier_id := "SUP-1000",
    supplier_name := "ERPMax Solutions", status := "Closed", total_amount := 45000,
    currency := "USD", created_date := "2024-09-20T00:00:00", contract_reference := none,
    items := [⟨"Additional User Licenses", 20, 1500⟩,
              ⟨"Training Services", 3, 5000⟩],
    notes := none, anomaly_flag := none }

def po2025001 : PurchaseOrder :=
  { id := "PO-2025001", order_number := "PO-2025001", supplier_id := "SUP-1000",
    supplier_name := "ERPMax Solutions", status := "Closed", total_amount := 97500,
    currency := "USD", created_date := "2025-01-10T00:00:00", contract_reference := none,
    items := [⟨"Annual Support Renewal", 1, 97500⟩],
    notes := none, anomaly_flag := none }

def po2025002 : PurchaseOrder :=
  { id := "PO-2025002", order_number := "PO-2025002", supplier_id := "SUP-1000",
    supplier_name := "ERPMax Solutions", status := "Received", total_amount := 35000,
    currency := "USD", created_date := "2025-08-05T00:00:00", contract_reference := none,
    items := [⟨"Analytics Module Add-on", 1, 25000⟩,
              ⟨"Configuration Services", 2, 5000⟩],
    notes := none, anomaly_flag := none }

def po2025003 : PurchaseOrder :=
  { id := "PO-2025003", order_number := "PO-2025003", supplier_id := "SUP-1002",
    supplier_name := "CloudFirst ERP", status := "Closed", total_amount := 15000,
    currency := "USD", created_date := "2025-03-15T00:00:00", contract_reference := none,
    items := [⟨"Pilot License - 10 users", 10, 1000⟩,
              ⟨"Setup Services", 1, 5000⟩],
    notes := none, anomaly_flag := none }

def po2025004 : PurchaseOrder :=
  { id := "PO-2025004", order_number := "PO-2025004", supplier_id := "SUP-1002",
    supplier_name := "CloudFirst ERP", status := "Acknowledged", total_amount := 8500,
    currency := "USD", created_date := "2025-11-20T00:00:00", contract_reference := none,
    items := [⟨"Extended Pilot - Additional Users", 5, 1000⟩,
              ⟨"Integration Consulting", 1, 3500⟩],
    notes := none, anomaly_flag := none }

def po2024003 : PurchaseOrder :=
  { id := "PO-2024003", order_number := "PO-2024003", supplier_id := "SUP-1001",
    supplier_name := "IntegraPro Systems", status := "Closed", total_amount := 75000,
    currency := "USD", created_date := "2024-04-10T00:00:00", contract_reference := none,
    items := [⟨"Integration Platform License", 1, 50000⟩,
              ⟨"API Gateway Setup", 1, 25000⟩],
    notes := none, anomaly_flag := none }

def po2025005 : PurchaseOrder :=
  { id := "PO-2025005", order_number := "PO-2025005", supplier_id := "SUP-1003",
    supplier_name := "ERP Max Solutions Inc", status := "Approved", total_amount := 85000,
    currency := "USD", created_date := "2025-07-15T00:00:00", contract_reference := none,
    items := [⟨"ERP Module Extension", 1, 60000⟩,
              ⟨"Configuration Services", 1, 25000⟩],
    notes := some "Duplicate supplier entry - should be consolidated with SUP-1000",
    anomaly_flag := none }

def po2025006 : PurchaseOrder :=
  { id := "PO-2025006", order_number := "PO-2025006", supplier_id := "SUP-1002",
    supplier_name := "CloudFirst ERP", status := "Pending Approval", total_amount := 75000,
    currency := "USD", created_date := "2025-12-01T00:00:00",
    contract_reference := some "CON-5025001",
    items := [⟨"Production License Upgrade", 25, 2000⟩,
              ⟨"Data Migration", 1, 25000⟩],
    notes := none,
    anomaly_flag := some "PO amount ($75,000) exceeds contract value ($25,000)" }

def po2025007 : PurchaseOrder :=
  { id := "PO-2025007", order_number := "PO-2025007", supplier_id := "SUP-1000",
    supplier_name := "ERPMax Solutions", status := "Draft", total_amount := 50000,
    currency := "USD", created_date := "2025-10-01T00:00:00",
    contract_reference := some "CON-5023001",
    items := [⟨"Legacy System Support Extension", 1, 50000⟩],
    notes := none,
    anomaly_flag := some "References expired contract CON-5023001 (ended 2024-05-31)" }

def po2023001 : PurchaseOrder :=
  { id := "PO-2023001", order_number := "PO-2023001", supplier_id := "SUP-1004",
    supplier_name := "Legacy Systems Corp", status := "Closed", total_amount := 120000,
    currency := "USD", created_date := "2023-06-15T00:00:00", contract_reference := none,
    items := [⟨"Legacy Maintenance Contract", 1, 120000⟩],
    notes := none, anomaly_flag := none }

def purchase_orders_db : List (String × PurchaseOrder) :=
  [("PO-2024001", po2024001), ("PO-2024002", po2024002), ("PO-2025001", po2025001),
   ("PO-2025002", po2025002), ("PO-2025003", po2025003), ("PO-2025004", po2025004),
   ("PO-2024003", po2024003), ("PO-2025005", po2025005), ("PO-2025006", po2025006),
   ("PO-2025007", po2025007), ("PO-2023001", po2023001)]

def req3024001 : Requisition :=
  { id := "REQ-3024001", requisition_number := "REQ-3024001", requester := "John Smith",
    status := "Approved", total_amount := 390000, currency := "USD",
    created_date := "2026-01-20T00:00:00", approval_status := "Approved",
    description := "Enterprise ERP System - ERPMax Solutions proposal" }

def req3024002 : Requisition :=
  { id := "REQ-3024002", requisition_number := "REQ-3024002", requester := "Jane Doe",
    status := "Pending Approval", total_amount := 450000, currency := "USD",
    created_date := "2026-01-22T00:00:00", approval_status := "Pending",
    description := "Enterprise ERP System - IntegraPro Systems proposal" }

def req3024003 : Requisition :=
  { id := "REQ-3024003", requisition_number := "REQ-3024003", requester := "Bob Wilson",
    status := "Submitted", total_amount := 290000, currency := "USD",
    created_date := "2026-01-25T00:00:00", approval_status := "Pending",
    description := "Enterprise ERP System - CloudFirst ERP proposal" }

def requisitions_db : List (String × Requisition) :=
  [("REQ-3024001", req3024001), ("REQ-3024002", req3024002), ("REQ-3024003", req3024003)]

def inv4024001 : Invoice :=
  { id := "INV-4024001", invoice_number := "INV-4024001", po_number := "PO-2024001",
    supplier_id := "SUP-1000", supplier_name := "ERPMax Solutions", amount := 125000,
    currency := "USD", status := "Paid", due_date := "2024-07-15T00:00:00",
    created_date := "2024-06-20T00:00:00", paid_date := some "2024-07-10T00:00:00",
    notes := none, anomaly_flag := none, rejection_reason := none }

def inv4024002 : Invoice :=
  { id := "INV-4024002", invoice_number := "INV-4024002", po_number := "PO-2024002",
    supplier_id := "SUP-1000", supplier_name := "ERPMax Solutions", amount := 45000,
    currency := "USD", status := "Paid", due_date := "2024-10-20T00:00:00",
    created_date := "2024-09-25T00:00:00", paid_date := some "2024-10-15T00:00:00",
    notes := none, anomaly_flag := none, rejection_reason := none }

def inv4025001 : Invoice :=
  { id := "INV-4025001", invoice_number := "INV-4025001", po_number := "PO-2025001",
    supplier_id := "SUP-1000", supplier_name := "ERPMax Solutions", amount := 97500,
    currency := "USD", status := "Paid", due_date := "2025-02-10T00:00:00",
    created_date := "2025-01-15T00:00:00", paid_date := some "2025-02-05T00:00:00",
    notes := none, anomaly_flag := none, rejection_reason := none }

def inv4025002 : Invoice :=
  { id := "INV-4025002", invoice_number := "INV-4025002", po_number := "PO-2025002",
    supplier_id := "SUP-1000", supplier_name := "ERPMax Solutions", amount := 35000,
    currency := "USD", status := "Under Review", due_date := "2025-09-05T00:00:00",
    created_date := "2025-08-10T00:00:00", paid_date := none,
    notes := none, anomaly_flag := none, rejection_reason := none }

def inv4025003 : Invoice :=
  { id := "INV-4025003", invoice_number := "INV-4025003", po_number := "PO-2025003",
    supplier_id := "SUP-1002", supplier_name := "CloudFirst ERP", amount := 15000,
    currency := "USD", status := "Paid", due_date := "2025-04-15T00:00:00",
    created_date := "2025-03-20T00:00:00", paid_date := some "2025-04-25T00:00:00",
    notes := some "Payment delayed due to invoice discrepancy",
    anomaly_flag := none, rejection_reason := none }

def inv4025004 : Invoice :=
  { id := "INV-4025004", invoice_number := "INV-4025004", po_number := "PO-2025004",
    supplier_id := "SUP-1002", supplier_name := "CloudFirst ERP", amount := 8500,
    currency := "USD", status := "Submitted", due_date := "2025-12-20T00:00:00",
    created_date := "2025-11-25T00:00:00", paid_date := none,
    notes := none, anomaly_flag := none, rejection_reason := none }

def inv4024003 : Invoice :=
  { id := "INV-4024003", invoice_number := "INV-4024003", po_number := "PO-2024003",
    supplier_id := "SUP-1001", supplier_name := "IntegraPro Systems", amount := 75000,
    currency := "USD", status := "Paid", due_date := "2024-05-10T00:00:00",
    created_date := "2024-04-15T00:00:00", paid_date := some "2024-05-05T00:00:00",
    notes := none, anomaly_flag := none, rejection_reason := none }

def inv4025005 : Invoice :=
  { id := "INV-4025005", invoice_number := "INV-4025005", po_number := "PO-2025005",
    supplier_id := "SUP-1003", supplier_name := "ERP Max Solutions Inc", amount := 85000,
    currency := "USD", status := "Submitted", due_date := "2025-08-15T00:00:00",
    created_date := "2025-07-20T00:00:00", paid_date := none, notes := none,
    anomaly_flag := some "Invoice from duplicate supplier SUP-1003 (duplicate of SUP-1000)",
    rejection_reason := none }

def inv4025006 : Invoice :=
  { id := "INV-4025006", invoice_number := "INV-4025006", po_number := "PO-2025002",
    supplier_id := "SUP-1000", supplier_name := "ERPMax Solutions", amount := 42000,
    currency := "USD", status := "Rejected", due_date := "2025-09-15T00:00:00",
    created_date := "2025-08-20T00:00:00", paid_date := none, notes := none,
    anomaly_flag := some "Invoice amount ($42,000) exceeds PO amount ($35,000) by $7,000",
    rejection_reason := some "Amount mismatch - requires PO amendment or new PO" }

def inv4023001 : Invoice :=
  { id := "INV-4023001", invoice_number := "INV-4023001", po_number := "PO-2023001",
    supplier_id := "SUP-1004", supplier_name := "Legacy Systems Corp", amount := 120000,
    currency := "USD", status := "Paid", due_date := "2023-07-15T00:00:00",
    created_date := "2023-06-20T00:00:00", paid_date := some "2023-08-01T00:00:00",
    notes := some "Late payment - 17 days overdue",
    anomaly_flag := none, rejection_reason := none }

def invoices_db : List (String × Invoice) :=
  [("INV-4024001", inv4024001), ("INV-4024002", inv4024002), ("INV-4025001", inv4025001),
   ("INV-4025002", inv4025002), ("INV-4025003", inv4025003), ("INV-4025004", inv4025004),
   ("INV-4024003", inv4024003), ("INV-4025005", inv4025005), ("INV-4025006", inv4025006),
   ("INV-4023001", inv4023001)]

def con5024001 : Contract :=
  { id := "CON-5024001", contract_number := "CON-5024001",
    title := "Enterprise ERP License and Support Agreement - ERPMax Solutions",
    supplier_id := "SUP-1000", supplier_name := "ERPMax Solutions",
    start_date := "2024-06-01T00:00:00", end_date := "2027-05-31T00:00:00",
    value := 450000, currency := "USD", status := "Active",
    terms := ⟨"Net 30", "Auto-renewal with 90-day notice", "99.95%", "24/7"⟩,
    total_po_value := none, anomaly_flag := none }

def con5025001 : Contract :=
  { id := "CON-5025001", contract_number := "CON-5025001",
    title := "Pilot Program Agreement - CloudFirst ERP",
    supplier_id := "SUP-1002", supplier_name := "CloudFirst ERP",
    start_date := "2025-03-01T00:00:00", end_date := "2025-12-31T00:00:00",
    value := 25000, currency := "USD", status := "Active",
    terms := ⟨"Net 15", "Evaluation required for renewal", "99.9%", "Business hours only"⟩,
    total_po_value := none, anomaly_flag := none }

def con5024002 : Contract :=
  { id := "CON-5024002", contract_number := "CON-5024002",
    title := "Integration Platform Services - IntegraPro Systems",
    supplier_id := "SUP-1001", supplier_name := "IntegraPro Systems",
    start_date := "2024-04-01T00:00:00", end_date := "2026-03-31T00:00:00",
    value := 200000, currency := "USD", status := "Active",
    terms := ⟨"Net 30", "1-year renewal option", "99.99%", "24/7"⟩,
    total_po_value := none, anomaly_flag := none }

def con5023001 : Contract :=
  { id := "CON-5023001", contract_number := "CON-5023001",
    title := "Legacy System Maintenance - ERPMax Solutions",
    supplier_id := "SUP-1000", supplier_name := "ERPMax Solutions",
    start_date := "2022-01-01T00:00:00", end_date := "2024-05-31T00:00:00",
    value := 180000, currency := "USD", status := "Expired",
    terms := ⟨"Net 30", "Replaced by CON-5024001", "99.9%", "Business hours"⟩,
    total_po_value := none, anomaly_flag := none }

def con5025002 : Contract :=
  { id := "CON-5025002", contract_number := "CON-5025002",
    title := "ERP Extension Services - ERP Max Solutions Inc",
    supplier_id := "SUP-1003", supplier_name := "ERP Max Solutions Inc",
    start_date := "2025-07-01T00:00:00", end_date := "2026-06-30T00:00:00",
    value := 100000, currency := "USD", status := "Active",
    terms := ⟨"Net 30", "Annual", "99.9%", "Business hours"⟩,
    total_po_value := none,
    anomaly_flag := some "Contract with duplicate supplier SUP-1003 (same as SUP-1000 ERPMax Solutions)" }

def con5022001 : Contract :=
  { id := "CON-5022001", contract_number := "CON-5022001",
    title := "Legacy Platform Maintenance - Legacy Systems Corp",
    supplier_id := "SUP-1004", supplier_name := "Legacy Systems Corp",
    start_date := "2022-01-01T00:00:00", end_date := "2024-12-31T00:00:00",
    value := 240000, currency := "USD", status := "Active",
    terms := ⟨"Net 45", "None", "99%", "Business hours"⟩,
    total_po_value := none,
    anomaly_flag := some "Contract expired 2024-12-31 but status still marked as Active" }

def con5024003 : Contract :=
  { id := "CON-5024003", contract_number := "CON-5024003",
    title := "Additional Services Agreement - ERPMax Solutions",
    supplier_id := "SUP-1000", supplier_name := "ERPMax Solutions",
    start_date := "2024-09-01T00:00:00", end_date := "2025-08-31T00:00:00",
    value := 30000, currency := "USD", status := "Active",
    terms := ⟨"Net 30", "None", "99.95%", "24/7"⟩,
    total_po_value := some 45000,
    anomaly_flag := some "Total PO value ($45,000) exceeds contract limit ($30,000) by $15,000" }

def contracts_db : List (String × Contract) :=
  [("CON-5024001", con5024001), ("CON-5025001", con5025001), ("CON-5024002", con5024002),
   ("CON-5023001", con5023001), ("CON-5025002", con5025002), ("CON-5022001", con5022001),
   ("CON-5024003", con5024003)]

/-- RFP-2026-001.  The `deadline` field is computed in the source from
`datetime.now() + timedelta(days=30)` at process start; the wall-clock value
is passed in as a parameter. -/
def rfp2026001 (deadline : String) : RFP :=
  { id := "RFP-2026-001", title := "Enterprise ERP System Implementation",
    status := "Open", deadline := deadline, budget_max := 500000, currency := "USD",
    requirements :=
      [⟨"REQ-001", "Functional", "Multi-currency support", "Must-have", 10⟩,
       ⟨"REQ-002", "Functional", "Real-time inventory tracking", "Must-have", 10⟩,
       ⟨"REQ-003", "Functional", "Automated purchase order generation", "Must-have", 10⟩,
       ⟨"REQ-004", "Functional", "Supplier portal integration", "Should-have", 8⟩,
       ⟨"REQ-005", "Functional", "Advanced analytics dashboard", "Should-have", 7⟩,
       ⟨"REQ-006", "Technical", "REST API availability", "Must-have", 10⟩,
       ⟨"REQ-007", "Technical", "Cloud-native architecture", "Should-have", 8⟩,
       ⟨"REQ-008", "Technical", "Mobile application support", "Nice-to-have", 5⟩,
       ⟨"REQ-009", "Integration", "SAP S/4HANA integration", "Must-have", 10⟩,
       ⟨"REQ-010", "Integration", "Salesforce CRM connector", "Nice-to-have", 5⟩] }

/-- RFP-2026-002 (`deadline` from `datetime.now() + timedelta(days=45)`). -/
def rfp2026002 (deadline : String) : RFP :=
  { id := "RFP-2026-002", title := "Logistics Management Platform",
    status := "Open", deadline := deadline, budget_max := 300000, currency := "USD",
    requirements :=
      [⟨"REQ-001", "Functional", "Route optimization", "Must-have", 10⟩,
       ⟨"REQ-002", "Functional", "Real-time shipment tracking", "Must-have", 10⟩,
       ⟨"REQ-003", "Functional", "Carrier rate comparison", "Must-have", 10⟩,
       ⟨"REQ-004", "Functional", "Automated customs documentation", "Should-have", 8⟩,
       ⟨"REQ-005", "Functional", "Warehouse management", "Should-have", 7⟩,
       ⟨"REQ-006", "Technical", "EDI support", "Must-have", 10⟩,
       ⟨"REQ-007", "Technical", "Multi-tenant SaaS", "Should-have", 8⟩,
       ⟨"REQ-008", "Integration", "ERP integration", "Must-have", 10⟩] }

/-- Table `rfps_db`, parametrized by the two wall-clock-dependent deadlines. -/
def rfps_db (d1 d2 : String) : List (String × RFP) :=
  [("RFP-2026-001", rfp2026001 d1), ("RFP-2026-002", rfp2026002 d2)]

def prop6024001 : Proposal :=
  { id := "PROP-6024001", rfp_id := "RFP-2026-001", supplier_id := "SUP-1000",
    supplier_name := "ERPMax Solutions", status := "Under Review",
    submitted_date := "2026-01-25T00:00:00",
    pricing := ⟨390000, "USD",
      [⟨"Implementation", 156000⟩, ⟨"Licensing", 136500⟩, ⟨"Support (yearly)", 97500⟩]⟩,
    sla := ⟨99.95, 1, 4, true, "5% credit per 0.1% below uptime"⟩,
    compliance := ⟨true, true, true, "Annual audit completed Jan 2026"⟩,
    functional_coverage :=
      [⟨"REQ-001", "Full", none⟩, ⟨"REQ-002", "Full", none⟩, ⟨"REQ-003", "Full", none⟩,
       ⟨"REQ-004", "Full", none⟩, ⟨"REQ-005", "Full", none⟩, ⟨"REQ-006", "Full", none⟩,
       ⟨"REQ-007", "Full", none⟩,
       ⟨"REQ-008", "Partial", some "Progressive web app available, native app in development"⟩,
       ⟨"REQ-009", "Full", none⟩,
       ⟨"REQ-010", "Partial", some "Basic integration available, advanced features require customization"⟩],
    delivery_weeks := 16, validity_days := 90 }

def prop6024002 : Proposal :=
  { id := "PROP-6024002", rfp_id := "RFP-2026-001", supplier_id := "SUP-1001",
    supplier_name := "IntegraPro Systems", status := "Under Review",
    submitted_date := "2026-01-28T00:00:00",
    pricing := ⟨450000, "USD",
      [⟨"Implementation", 180000⟩, ⟨"Licensing", 157500⟩, ⟨"Support (yearly)", 112500⟩]⟩,
    sla := ⟨99.99, 0.5, 2, true, "10% credit per 0.1% below uptime"⟩,
    compliance := ⟨true, true, true, "Continuous compliance monitoring"⟩,
    functional_coverage :=
      [⟨"REQ-001", "Full", none⟩, ⟨"REQ-002", "Full", none⟩, ⟨"REQ-003", "Full", none⟩,
       ⟨"REQ-004", "Full", none⟩, ⟨"REQ-005", "Full", none⟩, ⟨"REQ-006", "Full", none⟩,
       ⟨"REQ-007", "Full", none⟩, ⟨"REQ-008", "Full", none⟩, ⟨"REQ-009", "Full", none⟩,
       ⟨"REQ-010", "Full", none⟩],
    delivery_weeks := 20, validity_days := 60 }

def prop6024003 : Proposal :=
  { id := "PROP-6024003", rfp_id := "RFP-2026-001", supplier_id := "SUP-1002",
    supplier_name := "CloudFirst ERP", status := "Under Review",
    submitted_date := "2026-01-30T00:00:00",
    pricing := ⟨290000, "USD",
      [⟨"Implementation", 116000⟩, ⟨"Licensing", 101500⟩, ⟨"Support (yearly)", 72500⟩]⟩,
    sla := ⟨99.9, 2, 8, false, "Best effort basis"⟩,
    compliance := ⟨true, false, false, "ISO 27001 certification expected Q2 2026, SOC 2 Type I only"⟩,
    functional_coverage :=
      [⟨"REQ-001", "Full", none⟩,
       ⟨"REQ-002", "Partial", some "Real-time updates every 5 minutes, true real-time planned for Q3"⟩,
       ⟨"REQ-003", "Full", none⟩,
       ⟨"REQ-004", "Roadmap", some "Supplier portal module scheduled for Q4 2026 release"⟩,
       ⟨"REQ-005", "Partial", some "Standard reports available, custom analytics requires additional module"⟩,
       ⟨"REQ-006", "Full", none⟩, ⟨"REQ-007", "Full", none⟩,
       ⟨"REQ-008", "None", some "Mobile app not currently available, web interface is mobile-responsive"⟩,
       ⟨"REQ-009", "Partial", some "Basic integration via standard APIs, full iDoc support requires customization"⟩,
       ⟨"REQ-010", "None", some "Salesforce integration not currently supported"⟩],
    delivery_weeks := 12, validity_days := 90 }

def proposals_db : List (String × Proposal) :=
  [("PROP-6024001", prop6024001), ("PROP-6024002", prop6024002),
   ("PROP-6024003", prop6024003)]

end MockApi

namespace MockApi

/-! ### List endpoints (`list_suppliers` ... `list_rfps`): start from
`list(db.values())` and apply each provided, non-empty filter in turn. -/

def suppliers_list : List Supplier := suppliers_db.map Prod.snd

def purchase_orders_list : List PurchaseOrder := purchase_orders_db.map Prod.snd

def requisitions_list : List Requisition := requisitions_db.map Prod.snd

def invoices_list : List Invoice := invoices_db.map Prod.snd

def contracts_list : List Contract := contracts_db.map Prod.snd

def rfps_list (d1 d2 : String) : List RFP := (rfps_db d1 d2).map Prod.snd

def proposals_list : List Proposal := proposals_db.map Prod.snd

/-- Handler of `GET /api/suppliers` (`app.py` lines 818–827). -/
def list_suppliers (status category : Option String) : List Supplier :=
  let suppliers := suppliers_list
  let suppliers := match truthy status with
    | some q => suppliers.filter fun s => strLower s.status == strLower q
    | none => suppliers
  match truthy category with
  | some q => suppliers.filter fun s => strLower s.category == strLower q
  | none => suppliers

/-- Handler of `GET /api/purchase-orders` (lines 838–847); `supplier_id` is compared
with plain `==`. -/
def list_purchase_orders (status supplier_id : Option String) : List PurchaseOrder :=
  let orders := purchase_orders_list
  let orders := match truthy status with
    | some q => orders.filter fun o => strLower o.status == strLower q
    | none => orders
  match truthy supplier_id with
  | some q => orders.filter fun o => o.supplier_id == q
  | none => orders

/-- Handler of `GET /api/requisitions` (lines 858–867); `requester` is a
case-insensitive substring match (`requester.lower() in r["requester"].lower()`). -/
def list_requisitions (status requester : Option String) : List Requisition :=
  let reqs := requisitions_list
  let reqs := match truthy status with
    | some q => reqs.filter fun r => strLower r.status == strLower q
    | none => reqs
  match truthy requester with
  | some q => reqs.filter fun r => strContains (strLower q) (strLower r.requester)
  | none => reqs

/-- Handler of `GET /api/invoices` (lines 878–887); `po_number` is compared with plain `==`. -/
def list_invoices (status po_number : Option String) : List Invoice :=
  let invs := invoices_list
  let invs := match truthy status with
    | some q => invs.filter fun i => strLower i.status == strLower q
    | none => invs
  match truthy po_number with
  | some q => invs.filter fun i => i.po_number == q
  | none => invs

/-- Handler of `GET /api/contracts` (lines 898–907); `supplier_name` is a
case-insensitive substring match. -/
def list_contracts (status supplier_name : Option String) : List Contract :=
  let cons := contracts_list
  let cons := match truthy status with
    | some q => cons.filter fun c => strLower c.status == strLower q
    | none => cons
  match truthy supplier_name with
  | some q => cons.filter fun c => strContains (strLower q) (strLower c.supplier_name)
  | none => cons

/-- Handler of `GET /api/proposals` (lines 918–930); `rfp_id` and `supplier_id` are
compared with plain `==`, then `status` case-insensitively. -/
def list_proposals (rfp_id supplier_id status : Option String) : List Proposal :=
  let props := proposals_list
  let props := match truthy rfp_id with
    | some q => props.filter fun p => p.rfp_id == q
    | none => props
  let props := match truthy supplier_id with
    | some q => props.filter fun p => p.supplier_id == q
    | none => props
  match truthy status with
  | some q => props.filter fun p => strLower p.status == strLower q
  | none => props

/-- Handler of `GET /api/rfps` (lines 941–947). -/
def list_rfps (d1 d2 : String) (status : Option String) : List RFP :=
  let rfps := rfps_list d1 d2
  match truthy status with
  | some q => rfps.filter fun r => strLower r.status == strLower q
  | none => rfps

/-! ### JSON serialization of the stored records (`jsonify`).
Key order of the serialized objects is canonical per entity; optional keys
that a given record lacks are omitted, exactly as in the Python dicts. -/

def optStrField (k : String) : Option String → List (String × Json)
  | none => []
  | some s => [(k, Json.str s)]

def optNumField (k : String) : Option ℚ → List (String × Json)
  | none => []
  | some q => [(k, Json.num q)]

def Supplier.toJson (s : Supplier) : Json :=
  Json.obj
    ([("id", .str s.id), ("name", .str s.name), ("status", .str s.status),
      ("category", .str s.category), ("country", .str s.country),
      ("contact_name", .str s.contact_name), ("contact_email", .str s.contact_email),
      ("contact_phone", .str s.contact_phone), ("risk_score", .num s.risk_score),
      ("created_date", .str s.created_date)]
     ++ optStrField "last_activity_date" s.last_activity_date)

def Item.toJson (it : Item) : Json :=
  Json.obj [("description", .str it.description), ("quantity", .num it.quantity),
            ("unit_price", .num it.unit_price)]

def PurchaseOrder.toJson (o : PurchaseOrder) : Json :=
  Json.obj
    ([("id", .str o.id), ("order_number", .str o.order_number),
      ("supplier_id", .str o.supplier_id), ("supplier_name", .str o.supplier_name),
      ("status", .str o.status), ("total_amount", .num o.total_amount),
      ("currency", .str o.currency), ("created_date", .str o.created_date)]
     ++ optStrField "contract_reference" o.contract_reference
     ++ [("items", .arr (o.items.map Item.toJson))]
     ++ optStrField "notes" o.notes
     ++ optStrField "anomaly_flag" o.anomaly_flag)

def Requisition.toJson (r : Requisition) : Json :=
  Json.obj
    [("id", .str r.id), ("requisition_number", .str r.requisition_number),
     ("requester", .str r.requester), ("status", .str r.status),
     ("total_amount", .num r.total_amount), ("currency", .str r.currency),
     ("created_date", .str r.created_date), ("approval_status", .str r.approval_status),
     ("description", .str r.description)]

def Invoice.toJson (i : Invoice) : Json :=
  Json.obj
    ([("id", .str i.id), ("invoice_number", .str i.invoice_number),
      ("po_number", .str i.po_number), ("supplier_id", .str i.supplier_id),
      ("supplier_name", .str i.supplier_name), ("amount", .num i.amount),
      ("currency", .str i.currency), ("status", .str i.status),
      ("due_date", .str i.due_date), ("created_date", .str i.created_date)]
     ++ optStrField "paid_date" i.paid_date
     ++ optStrField "notes" i.notes
     ++ optStrField "anomaly_flag" i.anomaly_flag
     ++ optStrField "rejection_reason" i.rejection_reason)

def Terms.toJson (t : Terms) : Json :=
  Json.obj [("payment_terms", .str t.payment_terms), ("renewal", .str t.renewal),
            ("sla_uptime", .str t.sla_uptime), ("support_hours", .str t.support_hours)]

def Contract.toJson (c : Contract) : Json :=
  Json.obj
    ([("id", .str c.id), ("contract_number", .str c.contract_number),
      ("title", .str c.title), ("supplier_id", .str c.supplier_id),
      ("supplier_name", .str c.supplier_name), ("start_date", .str c.start_date),
      ("end_date", .str c.end_date), ("value", .num c.value),
      ("currency", .str c.currency), ("status", .str c.status),
      ("terms", c.terms.toJson)]
     ++ optNumField "total_po_value" c.total_po_value
     ++ optStrField "anomaly_flag" c.anomaly_flag)

def Requirement.toJson (r : Requirement) : Json :=
  Json.obj [("id", .str r.id), ("category", .str r.category),
            ("description", .str r.description), ("priority", .str r.priority),
            ("weight", .num r.weight)]

def RFP.toJson (r : RFP) : Json :=
  Json.obj
    [("id", .str r.id), ("title", .str r.title), ("status", .str r.status),
     ("deadline", .str r.deadline), ("budget_max", .num r.budget_max),
     ("currency", .str r.currency),
     ("requirements", .arr (r.requirements.map Requirement.toJson))]

def BreakdownItem.toJson (b : BreakdownItem) : Json :=
  Json.obj [("item", .str b.item), ("amount", .num b.amount)]

def Pricing.toJson (p : Pricing) : Json :=
  Json.obj [("total", .num p.total), ("currency", .str p.currency),
            ("breakdown", .arr (p.breakdown.map BreakdownItem.toJson))]

def Sla.toJson (s : Sla) : Json :=
  Json.obj [("uptime", .num s.uptime),
            ("response_time_hours", .num s.response_time_hours),
            ("resolution_time_hours", .num s.resolution_time_hours),
            ("penalties", .bool s.penalties),
            ("penalty_details", .str s.penalty_details)]

def Compliance.toJson (c : Compliance) : Json :=
  Json.obj [("gdpr", .bool c.gdpr), ("iso27001", .bool c.iso27001),
            ("soc2", .bool c.soc2), ("notes", .str c.notes)]

/-- Coverage entries always carry a `notes` key; a Python `None` serializes
to JSON `null`. -/
def Coverage.toJson (c : Coverage) : Json :=
  Json.obj [("requirement_id", .str c.requirement_id), ("status", .str c.status),
            ("notes", match c.notes with | none => Json.null | some s => Json.str s)]

def Proposal.toJson (p : Proposal) : Json :=
  Json.obj
    [("id", .str p.id), ("rfp_id", .str p.rfp_id),
     ("supplier_id", .str p.supplier_id), ("supplier_name", .str p.supplier_name),
     ("status", .str p.status), ("submitted_date", .str p.submitted_date),
     ("pricing", p.pricing.toJson), ("sla", p.sla.toJson),
     ("compliance", p.compliance.toJson),
     ("functional_coverage", .arr (p.functional_coverage.map Coverage.toJson)),
     ("delivery_weeks", .num p.delivery_weeks),
     ("validity_days", .num p.validity_days)]

/-! ### Detail endpoints: 404 with an error object naming the entity and id
for an unknown id, otherwise 200 with the stored record. -/

/-- Handler of `GET /api/suppliers/<supplier_id>` (lines 830–834). -/
def get_supplier (supplier_id : String) : Nat × Json :=
  match suppliers_db.lookup supplier_id with
  | none => (404, Json.obj [("error",
      Json.str ("Supplier \x27" ++ supplier_id ++ "\x27 not found"))])
  | some s => (200, s.toJson)

/-- Handler of `GET /api/purchase-orders/<po_id>` (lines 850–854). -/
def get_purchase_order (po_id : String) : Nat × Json :=
  match purchase_orders_db.lookup po_id with
  | none => (404, Json.obj [("error",
      Json.str ("Purchase order \x27" ++ po_id ++ "\x27 not found"))])
  | some o => (200, o.toJson)

/-- Handler of `GET /api/requisitions/<req_id>` (lines 870–874). -/
def get_requisition (req_id : String) : Nat × Json :=
  match requisitions_db.lookup req_id with
  | none => (404, Json.obj [("error",
      Json.str ("Requisition \x27" ++ req_id ++ "\x27 not found"))])
  | some r => (200, r.toJson)

/-- Handler of `GET /api/invoices/<invoice_id>` (lines 890–894). -/
def get_invoice (invoice_id : String) : Nat × Json :=
  match invoices_db.lookup invoice_id with
  | none => (404, Json.obj [("error",
      Json.str ("Invoice \x27" ++ invoice_id ++ "\x27 not found"))])
  | some i => (200, i.toJson)

/-- Handler of `GET /api/contracts/<contract_id>` (lines 910–914). -/
def get_contract (contract_id : String) : Nat × Json :=
  match contracts_db.lookup contract_id with
  | none => (404, Json.obj [("error",
      Json.str ("Contract \x27" ++ contract_id ++ "\x27 not found"))])
  | some c => (200, c.toJson)

/-- Handler of `GET /api/proposals/<proposal_id>` (lines 933–937). -/
def get_proposal (proposal_id : String) : Nat × Json :=
  match proposals_db.lookup proposal_id with
  | none => (404, Json.obj [("error",
      Json.str ("Proposal \x27" ++ proposal_id ++ "\x27 not found"))])
  | some p => (200, p.toJson)

/-- Handler of `GET /api/rfps/<rfp_id>` (lines 950–954). -/
def get_rfp (d1 d2 : String) (rfp_id : String) : Nat × Json :=
  match (rfps_db d1 d2).lookup rfp_id with
  | none => (404, Json.obj [("error",
      Json.str ("RFP \x27" ++ rfp_id ++ "\x27 not found"))])
  | some r => (200, r.toJson)

end MockApi

/-! ## Risk assessment provider (`src/risk/app.py`) -/

namespace RiskApi

structure RiskFactor where
  name : String
  score : ℚ
  weight : ℚ
  trend : String
deriving DecidableEq

structure RiskAlert where
  type : String
  message : String
  date : String
deriving DecidableEq

structure RiskScore where
  supplier_id : String
  supplier_name : String
  overall_risk_score : ℚ
  risk_level : String
  last_assessed : String
  next_review : String
  factors : List RiskFactor
  alerts : List RiskAlert
  anomaly_flag : Option String
  data_quality : Option String
  note : Option String
deriving DecidableEq

/-! ### Hardcoded risk records (`generate_risk_data`) -/

def risk1000 : RiskScore :=
  { supplier_id := "SUP-1000", supplier_name := "ERPMax Solutions",
    overall_risk_score := 2.1, risk_level := "Low",
    last_assessed := "2026-01-15T00:00:00", next_review := "2026-07-15T00:00:00",
    factors :=
      [⟨"Financial Stability", 2.0, 0.25, "stable"⟩,
       ⟨"Compliance History", 1.5, 0.20, "improving"⟩,
       ⟨"Delivery Performance", 2.5, 0.20, "stable"⟩,
       ⟨"Quality Issues", 2.0, 0.15, "stable"⟩,
       ⟨"Cybersecurity", 2.0, 0.10, "improving"⟩,
       ⟨"ESG Score", 3.0, 0.10, "stable"⟩],
    alerts :=
      [⟨"info", "Annual security audit completed successfully", "2026-01-10T00:00:00"⟩],
    anomaly_flag := none, data_quality := none, note := none }

def risk1001 : RiskScore :=
  { supplier_id := "SUP-1001", supplier_name := "IntegraPro Systems",
    overall_risk_score := 1.8, risk_level := "Low",
    last_assessed := "2026-01-20T00:00:00", next_review := "2026-07-20T00:00:00",
    factors :=
      [⟨"Financial Stability", 1.5, 0.25, "improving"⟩,
       ⟨"Compliance History", 1.0, 0.20, "stable"⟩,
       ⟨"Delivery Performance", 2.0, 0.20, "stable"⟩,
       ⟨"Quality Issues", 2.0, 0.15, "improving"⟩,
       ⟨"Cybersecurity", 1.5, 0.10, "stable"⟩,
       ⟨"ESG Score", 2.5, 0.10, "improving"⟩],
    alerts := [],
    anomaly_flag := none, data_quality := none, note := none }

def risk1002 : RiskScore :=
  { supplier_id := "SUP-1002", supplier_name := "CloudFirst ERP",
    overall_risk_score := 4.5, risk_level := "Medium",
    last_assessed := "2026-01-25T00:00:00", next_review := "2026-04-25T00:00:00",
    factors :=
      [⟨"Financial Stability", 5.0, 0.25, "stable"⟩,
       ⟨"Compliance History", 6.0, 0.20, "improving"⟩,
       ⟨"Delivery Performance", 3.5, 0.20, "stable"⟩,
       ⟨"Quality Issues", 4.0, 0.15, "stable"⟩,
       ⟨"Cybersecurity", 5.5, 0.10, "declining"⟩,
       ⟨"ESG Score", 3.0, 0.10, "stable"⟩],
    alerts :=
      [⟨"warning", "ISO 27001 certification pending - expected Q2 2026", "2026-01-20T00:00:00"⟩,
       ⟨"warning", "SOC 2 Type II certification not yet obtained", "2026-01-15T00:00:00"⟩,
       ⟨"info", "Company founded in 2024 - limited track record", "2026-01-10T00:00:00"⟩],
    anomaly_flag := none, data_quality := none, note := none }

def risk1003 : RiskScore :=
  { supplier_id := "SUP-1003", supplier_name := "ERP Max Solutions Inc",
    overall_risk_score := 2.3, risk_level := "Low",
    last_assessed := "2025-06-15T00:00:00", next_review := "2025-12-15T00:00:00",
    factors :=
      [⟨"Financial Stability", 2.0, 0.25, "stable"⟩,
       ⟨"Compliance History", 1.5, 0.20, "stable"⟩,
       ⟨"Delivery Performance", 2.5, 0.20, "stable"⟩,
       ⟨"Quality Issues", 2.2, 0.15, "stable"⟩,
       ⟨"Cybersecurity", 2.0, 0.10, "stable"⟩,
       ⟨"ESG Score", 3.0, 0.10, "stable"⟩],
    alerts :=
      [⟨"critical", "DUPLICATE SUPPLIER DETECTED - Same entity as SUP-1000 (ERPMax Solutions)", "2025-08-01T00:00:00"⟩,
       ⟨"warning", "Recommend consolidation with master supplier record SUP-1000", "2025-08-01T00:00:00"⟩],
    anomaly_flag := some "Duplicate supplier entry - matches SUP-1000 ERPMax Solutions",
    data_quality := none, note := none }

def risk1004 : RiskScore :=
  { supplier_id := "SUP-1004", supplier_name := "Legacy Systems Corp",
    overall_risk_score := 7.5, risk_level := "High",
    last_assessed := "2023-12-01T00:00:00", next_review := "2024-06-01T00:00:00",
    factors :=
      [⟨"Financial Stability", 7.0, 0.25, "declining"⟩,
       ⟨"Compliance History", 6.5, 0.20, "declining"⟩,
       ⟨"Delivery Performance", 8.0, 0.20, "declining"⟩,
       ⟨"Quality Issues", 7.5, 0.15, "stable"⟩,
       ⟨"Cybersecurity", 8.5, 0.10, "declining"⟩,
       ⟨"ESG Score", 6.0, 0.10, "stable"⟩],
    alerts :=
      [⟨"critical", "STALE DATA - Risk assessment overdue by 24+ months", "2024-06-01T00:00:00"⟩,
       ⟨"critical", "No activity recorded since December 2023", "2024-01-15T00:00:00"⟩,
       ⟨"warning", "Contract expired but supplier still marked active in system", "2025-01-05T00:00:00"⟩,
       ⟨"warning", "Financial stability concerns - recommend review before new orders", "2023-11-20T00:00:00"⟩],
    anomaly_flag := some "Obsolete supplier - no activity in 24+ months, stale risk assessment",
    data_quality := none, note := none }

def risk_scores_db : List (String × RiskScore) :=
  [("SUP-1000", risk1000), ("SUP-1001", risk1001), ("SUP-1002", risk1002),
   ("SUP-1003", risk1003), ("SUP-1004", risk1004)]

/-! ### Dynamic fallback for unknown supplier ids -/

/-- Python `round(x, 1)`: rounding to one decimal place.  Every value the
fallback rounds is already an exact multiple of 1/10, where every rounding
convention is the identity, so the tie-breaking convention is irrelevant. -/
def round1 (q : ℚ) : ℚ := ((round (q * 10) : ℤ) : ℚ) / 10

/-- Computation `base_score = 3.0 + (hash_val % 50) / 10` — score between 3.0 and 7.9. -/
def base_score (hash_val : ℕ) : ℚ := 3 + ((hash_val % 50 : ℕ) : ℚ) / 10

def risk_levels : List String := ["Low", "Medium", "High", "Critical"]

/-- Computation `risk_level = risk_levels[min(int(base_score / 2.5), 3)]`.  (`int` of a
positive float truncates, i.e. is the floor.) -/
def fallback_risk_level (hash_val : ℕ) : String :=
  risk_levels.getD (min (Int.toNat ⌊base_score hash_val / (5 / 2 : ℚ)⌋) 3) ""

/-- The dynamically generated risk record for a supplier id absent from
`risk_scores_db`, a function of the id and of `hash_val`
(`int(hashlib.md5(supplier_id.encode()).hexdigest(), 16)`). -/
def dynamic_risk (hash_val : ℕ) (supplier_id : String) : RiskScore :=
  { supplier_id := supplier_id
    supplier_name := "Supplier " ++ supplier_id
    overall_risk_score := round1 (base_score hash_val)
    risk_level := fallback_risk_level hash_val
    last_assessed := "2026-01-01T00:00:00"
    next_review := "2026-07-01T00:00:00"
    factors :=
      [⟨"Financial Stability", round1 (2 + ((hash_val % 60 : ℕ) : ℚ) / 10), 0.25, "unknown"⟩,
       ⟨"Compliance History", round1 (5/2 + ((hash_val % 55 : ℕ) : ℚ) / 10), 0.20, "unknown"⟩,
       ⟨"Delivery Performance", round1 (2 + ((hash_val % 65 : ℕ) : ℚ) / 10), 0.20, "unknown"⟩,
       ⟨"Quality Issues", round1 (5/2 + ((hash_val % 50 : ℕ) : ℚ) / 10), 0.15, "unknown"⟩,
       ⟨"Cybersecurity", round1 (3 + ((hash_val % 45 : ℕ) : ℚ) / 10), 0.10, "unknown"⟩,
       ⟨"ESG Score", round1 (3 + ((hash_val % 40 : ℕ) : ℚ) / 10), 0.10, "unknown"⟩]
    alerts :=
      [⟨"info", "No historical risk data available - baseline assessment generated",
        "2026-01-01T00:00:00"⟩]
    anomaly_flag := none
    data_quality := some "estimated"
    note := some "Risk score generated dynamically - no historical data in system" }

/-- Handler of `GET /api/risk/score/<supplier_id>` (`risk/app.py` lines 183–228).
`hashVal` is the MD5-derived integer `int(hashlib.md5(id.encode()).hexdigest(), 16)`;
`hashlib.md5` is a fixed pure function of the id, modelled as a parameter. -/
def get_risk_score (hashVal : String → ℕ) (supplier_id : String) : RiskScore :=
  match risk_scores_db.lookup supplier_id with
  | some r => r
  | none => dynamic_risk (hashVal supplier_id) supplier_id

end RiskApi

/-! ## Statement-level definitions -/

namespace MockApi

/-- Acceptance of a record field under an optional status-like query
parameter as the code implements it: no constraint when the parameter is
absent/empty, otherwise case-insensitive equality. -/
def optCiEq (q : Option String) (field : String) : Bool :=
  match truthy q with
  | none => true
  | some s => strLower field == strLower s

/-- Acceptance under an optional id-keyed query parameter: exact string
equality when provided. -/
def optExact (q : Option String) (field : String) : Bool :=
  match truthy q with
  | none => true
  | some s => field == s

/-- Acceptance under an optional name-keyed query parameter:
case-insensitive substring containment when provided. -/
def optCiSub (q : Option String) (field : String) : Bool :=
  match truthy q with
  | none => true
  | some s => strContains (strLower s) (strLower field)

end MockApi

/-! Concrete fixtures used by the witness theorems. -/

/-- A network on which every outbound exchange fails with a transport error. -/
def failNet : Gateway.Net := fun _ => .transportError "connection refused"

/-- A network on which every outbound exchange succeeds with `200 []`. -/
def okNet : Gateway.Net := fun _ => .ok 200 (Json.arr [])

/-- An empty argument mapping. -/
def noArgs : Gateway.Args := fun _ => none

/-- Arguments `{"supplier_id": "SUP-1000"}`. -/
def supArgs : Gateway.Args :=
  fun k => if k = "supplier_id" then some "SUP-1000" else none

/-- Arguments `{"status": "Active"}`. -/
def stArgs : Gateway.Args :=
  fun k => if k = "status" then some "Active" else none

/-! ## Helper lemmas -/

theorem Gateway.apiCall_failure (net : Gateway.Net) (b : Gateway.Backend)
    (e : String) (p : List (String × String))
    (h : Gateway.isFailure (net ⟨b, e, p⟩) = true) :
    ∃ d, (Gateway.apiCall net b e p).2 = Json.obj [("error", Json.str d)] := by
  cases hr : net ⟨b, e, p⟩ with
  | transportError d => exact ⟨d, by simp [Gateway.apiCall, hr]⟩
  | ok status body =>
      have hc : (200 ≤ status && status < 300) = false := by
        rw [hr] at h
        simp only [Gateway.isFailure, Bool.not_eq_true'] at h
        exact h
      exact ⟨Gateway.httpStatusErrorMessage status, by simp [Gateway.apiCall, hr, hc]⟩

theorem Gateway.wrap_apiCall_failure (net : Gateway.Net) (b : Gateway.Backend)
    (e : String) (p : List (String × String))
    (hfail : ∀ req, Gateway.isFailure (net req) = true) :
    ∃ d, (Gateway.wrap (Gateway.apiCall net b e p)).2 =
      [⟨"text", Json.dumps (Json.obj [("error", Json.str d)])⟩] := by
  obtain ⟨d, hd⟩ := Gateway.apiCall_failure net b e p (hfail ⟨b, e, p⟩)
  refine ⟨d, ?_⟩
  rw [show (Gateway.wrap (Gateway.apiCall net b e p)).2 =
    [⟨"text", Json.dumps (Gateway.apiCall net b e p).2⟩] from rfl, hd]

theorem Gateway.addIf_filter_spec1 (a : Option String) (k : String) :
    (Gateway.truthy a = none →
      (Gateway.addIf [] k a).filter (fun p => p.1 == k) = []) ∧
    (∀ v, Gateway.truthy a = some v →
      (Gateway.addIf [] k a).filter (fun p => p.1 == k) = [(k, v)]) := by
  constructor
  · intro h
    simp [Gateway.addIf, h]
  · intro v h
    simp [Gateway.addIf, h]

theorem Gateway.addIf_filter_spec2_first (a b : Option String) (k j : String)
    (hjk : (j == k) = false) :
    (Gateway.truthy a = none →
      (Gateway.addIf (Gateway.addIf [] k a) j b).filter (fun p => p.1 == k) = []) ∧
    (∀ v, Gateway.truthy a = some v →
      (Gateway.addIf (Gateway.addIf [] k a) j b).filter (fun p => p.1 == k) = [(k, v)]) := by
  constructor
  · intro h
    cases hb : Gateway.truthy b <;> simp [Gateway.addIf, h, hb, hjk]
  · intro v h
    cases hb : Gateway.truthy b <;> simp [Gateway.addIf, h, hb, hjk]

theorem Gateway.addIf_filter_spec2_second (a b : Option String) (j k : String)
    (hjk : (j == k) = false) :
    (Gateway.truthy b = none →
      (Gateway.addIf (Gateway.addIf [] j a) k b).filter (fun p => p.1 == k) = []) ∧
    (∀ v, Gateway.truthy b = some v →
      (Gateway.addIf (Gateway.addIf [] j a) k b).filter (fun p => p.1 == k) = [(k, v)]) := by
  constructor
  · intro h
    cases ha : Gateway.truthy a <;> simp [Gateway.addIf, h, ha, hjk]
  · intro v h
    cases ha : Gateway.truthy a <;> simp [Gateway.addIf, h, ha, hjk]

theorem Gateway.addIf_filter_spec3_pos1 (a b c : Option String) (k j1 j2 : String)
    (h1 : (j1 == k) = false) (h2 : (j2 == k) = false) :
    (Gateway.truthy a = none →
      (Gateway.addIf (Gateway.addIf (Gateway.addIf [] k a) j1 b) j2 c).filter
        (fun p => p.1 == k) = []) ∧
    (∀ v, Gateway.truthy a = some v →
      (Gateway.addIf (Gateway.addIf (Gateway.addIf [] k a) j1 b) j2 c).filter
        (fun p => p.1 == k) = [(k, v)]) := by
  constructor
  · intro h
    cases hb : Gateway.truthy b <;> cases hc : Gateway.truthy c <;>
      simp [Gateway.addIf, h, hb, hc, h1, h2]
  · intro v h
    cases hb : Gateway.truthy b <;> cases hc : Gateway.truthy c <;>
      simp [Gateway.addIf, h, hb, hc, h1, h2]

theorem Gateway.addIf_filter_spec3_pos2 (a b c : Option String) (j1 k j2 : String)
    (h1 : (j1 == k) = false) (h2 : (j2 == k) = false) :
    (Gateway.truthy b = none →
      (Gateway.addIf (Gateway.addIf (Gateway.addIf [] j1 a) k b) j2 c).filter
        (fun p => p.1 == k) = []) ∧
    (∀ v, Gateway.truthy b = some v →
      (Gateway.addIf (Gateway.addIf (Gateway.addIf [] j1 a) k b) j2 c).filter
        (fun p => p.1 == k) = [(k, v)]) := by
  constructor
  · intro h
    cases ha : Gateway.truthy a <;> cases hc : Gateway.truthy c <;>
      simp [Gateway.addIf, h, ha, hc, h1, h2]
  · intro v h
    cases ha : Gateway.truthy a <;> cases hc : Gateway.truthy c <;>
      simp [Gateway.addIf, h, ha, hc, h1, h2]

theorem Gateway.addIf_filter_spec3_pos3 (a b c : Option String) (j1 j2 k : String)
    (h1 : (j1 == k) = false) (h2 : (j2 == k) = false) :
    (Gateway.truthy c = none →
      (Gateway.addIf (Gateway.addIf (Gateway.addIf [] j1 a) j2 b) k c).filter
        (fun p => p.1 == k) = []) ∧
    (∀ v, Gateway.truthy c = some v →
      (Gateway.addIf (Gateway.addIf (Gateway.addIf [] j1 a) j2 b) k c).filter
        (fun p => p.1 == k) = [(k, v)]) := by
  constructor
  · intro h
    cases ha : Gateway.truthy a <;> cases hb : Gateway.truthy b <;>
      simp [Gateway.addIf, h, ha, hb, h1, h2]
  · intro v h
    cases ha : Gateway.truthy a <;> cases hb : Gateway.truthy b <;>
      simp [Gateway.addIf, h, ha, hb, h1, h2]

/-! ## Claim theorems -/

/-- C1: for every recognized tool name and argument mapping, when every
outbound HTTP exchange fails at the transport level (timeout, connection
refused, or non-2xx status), `call_tool` still returns a normal structured
result whose text is the JSON dump of an object of the form
`{"error": <description>}`; being a total function, it raises no exception. -/
theorem gateway_backend_failure_returns_error_object
    (net : Gateway.Net) (name : String) (args : Gateway.Args)
    (hname : name ∈ Gateway.recognized_tools)
    (hfail : ∀ req, Gateway.isFailure (net req) = true) :
    ∃ desc, (Gateway.call_tool net name args).2 =
      [⟨"text", Json.dumps (Json.obj [("error", Json.str desc)])⟩] := by
  fin_cases hname <;>
    exact Gateway.wrap_apiCall_failure net _ _ _ hfail

/-- Witness for C1: `get_supplier` against a backend whose every exchange
fails with a connection error yields an `{"error": ...}` result. -/
theorem gateway_backend_failure_returns_error_object_witness :
    ∃ desc, (Gateway.call_tool failNet "get_supplier" supArgs).2 =
      [⟨"text", Json.dumps (Json.obj [("error", Json.str desc)])⟩] :=
  gateway_backend_failure_returns_error_object failNet "get_supplier" supArgs
    (by decide) (fun _ => rfl)

/-- C2: for every tool name outside the closed set of 16 recognized
identifiers, `call_tool` returns the structured text
the unknown-tool message naming the tool, issues zero outbound HTTP requests (the
request log is empty), and raises no exception (it is total). -/
theorem gateway_unknown_tool_structured_result
    (net : Gateway.Net) (name : String) (args : Gateway.Args)
    (h : name ∉ Gateway.recognized_tools) :
    Gateway.call_tool net name args =
      ([], [⟨"text", "Error: Unknown tool \x27" ++ name ++ "\x27"⟩]) := by
  simp only [Gateway.recognized_tools, List.mem_cons, List.not_mem_nil,
    or_false, not_or] at h
  obtain ⟨h1, h2, h3, h4, h5, h6, h7, h8, h9, h10, h11, h12, h13, h14, h15, h16⟩ := h
  simp [Gateway.call_tool, h1, h2, h3, h4, h5, h6, h7, h8, h9, h10, h11, h12,
    h13, h14, h15, h16]

/-- Witness for C2: the unrecognized name `frobnicate` yields the unknown-tool
text and an empty request log. -/
theorem gateway_unknown_tool_structured_result_witness :
    Gateway.call_tool okNet "frobnicate" noArgs =
      ([], [⟨"text", "Error: Unknown tool \x27frobnicate\x27"⟩]) :=
  gateway_unknown_tool_structured_result okNet "frobnicate" noArgs (by decide)

/-- C3: for every recognized list tool and every declared optional filter
argument, the query parameters of the single outbound request contain no
entry for that key when the argument is absent or empty, and exactly that
key mapped to the given value when it is present and non-empty. -/
theorem gateway_optional_filter_forwarding
    (net : Gateway.Net) (args : Gateway.Args) (tool : String)
    (keys : List String) (k : String)
    (hmem : (tool, keys) ∈ Gateway.list_tool_filters) (hk : k ∈ keys) :
    ∃ req, (Gateway.call_tool net tool args).1 = [req] ∧
      (Gateway.truthy (args k) = none →
        req.params.filter (fun p => p.1 == k) = []) ∧
      (∀ v, Gateway.truthy (args k) = some v →
        req.params.filter (fun p => p.1 == k) = [(k, v)]) := by
  fin_cases hmem
  · fin_cases hk
    · exact ⟨_, rfl, Gateway.addIf_filter_spec2_first (args "status")
        (args "category") "status" "category" (by decide)⟩
    · exact ⟨_, rfl, Gateway.addIf_filter_spec2_second (args "status")
        (args "category") "status" "category" (by decide)⟩
  · fin_cases hk
    · exact ⟨_, rfl, Gateway.addIf_filter_spec2_first (args "status")
        (args "supplier_id") "status" "supplier_id" (by decide)⟩
    · exact ⟨_, rfl, Gateway.addIf_filter_spec2_second (args "status")
        (args "supplier_id") "status" "supplier_id" (by decide)⟩
  · fin_cases hk
    · exact ⟨_, rfl, Gateway.addIf_filter_spec2_first (args "status")
        (args "requester") "status" "requester" (by decide)⟩
    · exact ⟨_, rfl, Gateway.addIf_filter_spec2_second (args "status")
        (args "requester") "status" "requester" (by decide)⟩
  · fin_cases hk
    · exact ⟨_, rfl, Gateway.addIf_filter_spec2_first (args "status")
        (args "po_number") "status" "po_number" (by decide)⟩
    · exact ⟨_, rfl, Gateway.addIf_filter_spec2_second (args "status")
        (args "po_number") "status" "po_number" (by decide)⟩
  · fin_cases hk
    · exact ⟨_, rfl, Gateway.addIf_filter_spec2_first (args "status")
        (args "supplier_name") "status" "supplier_name" (by decide)⟩
    · exact ⟨_, rfl, Gateway.addIf_filter_spec2_second (args "status")
        (args "supplier_name") "status" "supplier_name" (by decide)⟩
  · fin_cases hk
    · exact ⟨_, rfl, Gateway.addIf_filter_spec3_pos1 (args "rfp_id")
        (args "supplier_id") (args "status") "rfp_id" "supplier_id" "status"
        (by decide) (by decide)⟩
    · exact ⟨_, rfl, Gateway.addIf_filter_spec3_pos2 (args "rfp_id")
        (args "supplier_id") (args "status") "rfp_id" "supplier_id" "status"
        (by decide) (by decide)⟩
    · exact ⟨_, rfl, Gateway.addIf_filter_spec3_pos3 (args "rfp_id")
        (args "supplier_id") (args "status") "rfp_id" "supplier_id" "status"
        (by decide) (by decide)⟩
  · fin_cases hk
    exact ⟨_, rfl, Gateway.addIf_filter_spec1 (args "status") "status"⟩

/-- Witness for C3: `list_suppliers` with `{"status": "Active"}` forwards
exactly `status=Active` for key `status`. -/
theorem gateway_optional_filter_forwarding_witness :
    ∃ req, (Gateway.call_tool okNet "list_suppliers" stArgs).1 = [req] ∧
      (Gateway.truthy (stArgs "status") = none →
        req.params.filter (fun p => p.1 == "status") = []) ∧
      (∀ v, Gateway.truthy (stArgs "status") = some v →
        req.params.filter (fun p => p.1 == "status") = [("status", v)]) :=
  gateway_optional_filter_forwarding okNet stArgs "list_suppliers"
    ["status", "category"] "status" (by decide) (by decide)

/-- C4: every recognized detail tool invoked with its path argument present
issues exactly one HTTP GET to its fixed path template with the argument
value substituted verbatim. -/
theorem gateway_detail_path_substitution
    (net : Gateway.Net) (args : Gateway.Args) (tool : String)
    (b : Gateway.Backend) (stem key v : String)
    (hmem : (tool, b, stem, key) ∈ Gateway.detail_tools)
    (hv : args key = some v) :
    (Gateway.call_tool net tool args).1 = [⟨b, stem ++ v, []⟩] := by
  fin_cases hmem
  · exact congrArg (fun o =>
      [Gateway.OutRequest.mk .mock ("/api/suppliers/" ++ Gateway.pyStr o) []]) hv
  · exact congrArg (fun o =>
      [Gateway.OutRequest.mk .mock ("/api/purchase-orders/" ++ Gateway.pyStr o) []]) hv
  · exact congrArg (fun o =>
      [Gateway.OutRequest.mk .mock ("/api/requisitions/" ++ Gateway.pyStr o) []]) hv
  · exact congrArg (fun o =>
      [Gateway.OutRequest.mk .mock ("/api/invoices/" ++ Gateway.pyStr o) []]) hv
  · exact congrArg (fun o =>
      [Gateway.OutRequest.mk .mock ("/api/contracts/" ++ Gateway.pyStr o) []]) hv
  · exact congrArg (fun o =>
      [Gateway.OutRequest.mk .mock ("/api/proposals/" ++ Gateway.pyStr o) []]) hv
  · exact congrArg (fun o =>
      [Gateway.OutRequest.mk .mock ("/api/rfps/" ++ Gateway.pyStr o) []]) hv
  · exact congrArg (fun o =>
      [Gateway.OutRequest.mk .risk ("/api/risk/score/" ++ Gateway.pyStr o) []]) hv

/-- Witness for C4: `get_supplier` with `{"supplier_id": "SUP-1000"}`
issues `GET /api/suppliers/SUP-1000` against the mock backend. -/
theorem gateway_detail_path_substitution_witness :
    (Gateway.call_tool okNet "get_supplier" supArgs).1 =
      [⟨Gateway.Backend.mock, "/api/suppliers/SUP-1000", []⟩] :=
  gateway_detail_path_substitution okNet supArgs "get_supplier"
    Gateway.Backend.mock "/api/suppliers/" "supplier_id" "SUP-1000"
    (by decide) rfl

/-- C5: every recognized detail tool invoked with its required path argument
absent is not rejected locally: the backend GET is still issued, with the
literal string `None` substituted into the path position. -/
theorem gateway_missing_path_arg_forwards_none
    (net : Gateway.Net) (args : Gateway.Args) (tool : String)
    (b : Gateway.Backend) (stem key : String)
    (hmem : (tool, b, stem, key) ∈ Gateway.detail_tools)
    (hv : args key = none) :
    (Gateway.call_tool net tool args).1 = [⟨b, stem ++ "None", []⟩] := by
  fin_cases hmem
  · exact congrArg (fun o =>
      [Gateway.OutRequest.mk .mock ("/api/suppliers/" ++ Gateway.pyStr o) []]) hv
  · exact congrArg (fun o =>
      [Gateway.OutRequest.mk .mock ("/api/purchase-orders/" ++ Gateway.pyStr o) []]) hv
  · exact congrArg (fun o =>
      [Gateway.OutRequest.mk .mock ("/api/requisitions/" ++ Gateway.pyStr o) []]) hv
  · exact congrArg (fun o =>
      [Gateway.OutRequest.mk .mock ("/api/invoices/" ++ Gateway.pyStr o) []]) hv
  · exact congrArg (fun o =>
      [Gateway.OutRequest.mk .mock ("/api/contracts/" ++ Gateway.pyStr o) []]) hv
  · exact congrArg (fun o =>
      [Gateway.OutRequest.mk .mock ("/api/proposals/" ++ Gateway.pyStr o) []]) hv
  · exact congrArg (fun o =>
      [Gateway.OutRequest.mk .mock ("/api/rfps/" ++ Gateway.pyStr o) []]) hv
  · exact congrArg (fun o =>
      [Gateway.OutRequest.mk .risk ("/api/risk/score/" ++ Gateway.pyStr o) []]) hv

/-- Witness for C5: `get_supplier` with no arguments issues
`GET /api/suppliers/None`. -/
theorem gateway_missing_path_arg_forwards_none_witness :
    (Gateway.call_tool okNet "get_supplier" noArgs).1 =
      [⟨Gateway.Backend.mock, "/api/suppliers/None", []⟩] :=
  gateway_missing_path_arg_forwards_none okNet noArgs "get_supplier"
    Gateway.Backend.mock "/api/suppliers/" "supplier_id" (by decide) rfl

/-- C6: for every operation of the fixed tool set and identical argument
values, the REST facade handler issues the same outbound backend request
(same backend selector, path, and query parameters) as the corresponding
branch of `call_tool`.  List handlers receive the same mapping as query
parameters; each detail handler receives the value of the corresponding
tool argument as its path parameter. -/
theorem rest_facade_matches_call_tool (net : Gateway.Net) (args : Gateway.Args) :
    (Gateway.api_dashboard net).1 =
      (Gateway.call_tool net "get_dashboard_summary" args).1 ∧
    (Gateway.api_suppliers net args).1 =
      (Gateway.call_tool net "list_suppliers" args).1 ∧
    (∀ v, args "supplier_id" = some v →
      (Gateway.api_supplier_detail net v).1 =
        (Gateway.call_tool net "get_supplier" args).1) ∧
    (Gateway.api_purchase_orders net args).1 =
      (Gateway.call_tool net "list_purchase_orders" args).1 ∧
    (∀ v, args "po_id" = some v →
      (Gateway.api_purchase_order_detail net v).1 =
        (Gateway.call_tool net "get_purchase_order" args).1) ∧
    (Gateway.api_requisitions net args).1 =
      (Gateway.call_tool net "list_requisitions" args).1 ∧
    (∀ v, args "req_id" = some v →
      (Gateway.api_requisition_detail net v).1 =
        (Gateway.call_tool net "get_requisition" args).1) ∧
    (Gateway.api_invoices net args).1 =
      (Gateway.call_tool net "list_invoices" args).1 ∧
    (∀ v, args "invoice_id" = some v →
      (Gateway.api_invoice_detail net v).1 =
        (Gateway.call_tool net "get_invoice" args).1) ∧
    (Gateway.api_contracts net args).1 =
      (Gateway.call_tool net "list_contracts" args).1 ∧
    (∀ v, args "contract_id" = some v →
      (Gateway.api_contract_detail net v).1 =
        (Gateway.call_tool net "get_contract" args).1) ∧
    (Gateway.api_proposals net args).1 =
      (Gateway.call_tool net "list_proposals" args).1 ∧
    (∀ v, args "proposal_id" = some v →
      (Gateway.api_proposal_detail net v).1 =
        (Gateway.call_tool net "get_proposal" args).1) ∧
    (Gateway.api_rfps net args).1 =
      (Gateway.call_tool net "list_rfps" args).1 ∧
    (∀ v, args "rfp_id" = some v →
      (Gateway.api_rfp_detail net v).1 =
        (Gateway.call_tool net "get_rfp" args).1) ∧
    (∀ v, args "supplier_id" = some v →
      (Gateway.api_risk_score net v).1 =
        (Gateway.call_tool net "risk_get_score" args).1) := by
  refine ⟨rfl, rfl, ?_, rfl, ?_, rfl, ?_, rfl, ?_, rfl, ?_, rfl, ?_, rfl, ?_, ?_⟩
  · intro v hv
    exact (congrArg (fun o =>
      [Gateway.OutRequest.mk .mock ("/api/suppliers/" ++ Gateway.pyStr o) []]) hv).symm
  · intro v hv
    exact (congrArg (fun o =>
      [Gateway.OutRequest.mk .mock ("/api/purchase-orders/" ++ Gateway.pyStr o) []]) hv).symm
  · intro v hv
    exact (congrArg (fun o =>
      [Gateway.OutRequest.mk .mock ("/api/requisitions/" ++ Gateway.pyStr o) []]) hv).symm
  · intro v hv
    exact (congrArg (fun o =>
      [Gateway.OutRequest.mk .mock ("/api/invoices/" ++ Gateway.pyStr o) []]) hv).symm
  · intro v hv
    exact (congrArg (fun o =>
      [Gateway.OutRequest.mk .mock ("/api/contracts/" ++ Gateway.pyStr o) []]) hv).symm
  · intro v hv
    exact (congrArg (fun o =>
      [Gateway.OutRequest.mk .mock ("/api/proposals/" ++ Gateway.pyStr o) []]) hv).symm
  · intro v hv
    exact (congrArg (fun o =>
      [Gateway.OutRequest.mk .mock ("/api/rfps/" ++ Gateway.pyStr o) []]) hv).symm
  · intro v hv
    exact (congrArg (fun o =>
      [Gateway.OutRequest.mk .risk ("/api/risk/score/" ++ Gateway.pyStr o) []]) hv).symm

/-- Witness for C6: the facade supplier-detail handler for `SUP-1000` issues
the same request as the `get_supplier` tool branch with
`{"supplier_id": "SUP-1000"}`. -/
theorem rest_facade_matches_call_tool_witness :
    (Gateway.api_supplier_detail okNet "SUP-1000").1 =
      (Gateway.call_tool okNet "get_supplier" supArgs).1 :=
  (rest_facade_matches_call_tool okNet supArgs).2.2.1 "SUP-1000" rfl

/-- C7: the risk service function `get_risk_score` is a pure function of the
supplier id and of the (fixed, deterministic) MD5-derived hash value at
that id, so repeated calls return identical results: any two hash
functions agreeing at `id` give the same response, and on the unknown-id
path the response is exactly the dynamic record computed from the id and
its hash value alone — no other source of variation exists. -/
theorem risk_get_score_deterministic (h1 h2 : String → ℕ) (id : String)
    (hh : h1 id = h2 id) :
    RiskApi.get_risk_score h1 id = RiskApi.get_risk_score h2 id ∧
    (RiskApi.risk_scores_db.lookup id = none →
      RiskApi.get_risk_score h1 id = RiskApi.dynamic_risk (h1 id) id) := by
  constructor
  · unfold RiskApi.get_risk_score
    rw [hh]
  · intro hl
    unfold RiskApi.get_risk_score
    rw [hl]

/-- Witness for C7: for the unknown id `SUP-9999`, two calls agree and the
result is the dynamic fallback record. -/
theorem risk_get_score_deterministic_witness :
    RiskApi.get_risk_score (fun _ => 0) "SUP-9999" =
      RiskApi.get_risk_score (fun _ => 0) "SUP-9999" ∧
    RiskApi.get_risk_score (fun _ => 0) "SUP-9999" =
      RiskApi.dynamic_risk 0 "SUP-9999" :=
  ⟨(risk_get_score_deterministic (fun _ => 0) (fun _ => 0) "SUP-9999" rfl).1,
   (risk_get_score_deterministic (fun _ => 0) (fun _ => 0) "SUP-9999" rfl).2 rfl⟩

/-- C10: for every supplier id absent from the hardcoded risk table, the
dynamically generated fallback of `get_risk_score` has an overall risk
score in the closed range [3.0, 7.9] that is a multiple of 0.1, and its
risk level is always `Medium`, `High`, or `Critical` — never `Low`. -/
theorem risk_fallback_range_and_level (hashVal : String → ℕ) (id : String)
    (h : RiskApi.risk_scores_db.lookup id = none) :
    3 ≤ (RiskApi.get_risk_score hashVal id).overall_risk_score ∧
    (RiskApi.get_risk_score hashVal id).overall_risk_score ≤ 79 / 10 ∧
    (∃ m : ℕ, (RiskApi.get_risk_score hashVal id).overall_risk_score = (m : ℚ) / 10) ∧
    ((RiskApi.get_risk_score hashVal id).risk_level = "Medium" ∨
     (RiskApi.get_risk_score hashVal id).risk_level = "High" ∨
     (RiskApi.get_risk_score hashVal id).risk_level = "Critical") ∧
    (RiskApi.get_risk_score hashVal id).risk_level ≠ "Low" := by
  have hg : RiskApi.get_risk_score hashVal id =
      RiskApi.dynamic_risk (hashVal id) id := by
    unfold RiskApi.get_risk_score
    rw [h]
  rw [hg]
  have hover : (RiskApi.dynamic_risk (hashVal id) id).overall_risk_score =
      ((30 + hashVal id % 50 : ℕ) : ℚ) / 10 := by
    show RiskApi.round1 (RiskApi.base_score (hashVal id)) = _
    have hbs : RiskApi.base_score (hashVal id) * 10 =
        ((30 + hashVal id % 50 : ℕ) : ℚ) := by
      unfold RiskApi.base_score
      push_cast
      ring
    unfold RiskApi.round1
    rw [hbs]
    rw [show round (((30 + hashVal id % 50 : ℕ) : ℚ)) =
        ((30 + hashVal id % 50 : ℕ) : ℤ) from by
      exact_mod_cast @round_intCast ℚ _ _ ((30 + hashVal id % 50 : ℕ) : ℤ)]
    rw [Int.cast_natCast]
  have hk : hashVal id % 50 ≤ 49 := by omega
  have hkq : ((hashVal id % 50 : ℕ) : ℚ) ≤ 49 := by exact_mod_cast hk
  have hkq0 : (0 : ℚ) ≤ ((hashVal id % 50 : ℕ) : ℚ) := Nat.cast_nonneg _
  have hlev : (RiskApi.dynamic_risk (hashVal id) id).risk_level =
      RiskApi.risk_levels.getD ((30 + hashVal id % 50) / 25) "" := by
    show RiskApi.fallback_risk_level (hashVal id) = _
    unfold RiskApi.fallback_risk_level
    have hq : RiskApi.base_score (hashVal id) / (5 / 2 : ℚ) =
        ((30 + hashVal id % 50 : ℕ) : ℚ) / ((25 : ℕ) : ℚ) := by
      unfold RiskApi.base_score
      push_cast
      ring
    rw [hq, Int.floor_toNat, Nat.floor_div_nat, Nat.floor_natCast]
    have hmin : min ((30 + hashVal id % 50) / 25) 3 = (30 + hashVal id % 50) / 25 :=
      Nat.min_eq_left (by omega)
    rw [hmin]
  have hdiv : (30 + hashVal id % 50) / 25 = 1 ∨ (30 + hashVal id % 50) / 25 = 2 ∨
      (30 + hashVal id % 50) / 25 = 3 := by omega
  refine ⟨?_, ?_, ⟨30 + hashVal id % 50, hover⟩, ?_, ?_⟩
  · rw [hover]
    push_cast
    linarith
  · rw [hover]
    push_cast
    linarith
  · rcases hdiv with hd | hd | hd <;> rw [hlev, hd] <;> decide
  · rcases hdiv with hd | hd | hd <;> rw [hlev, hd] <;> decide

/-- Witness for C10: the fallback record for the unknown id `SUP-9999`
(with hash value 0) satisfies the bounds and level constraints. -/
theorem risk_fallback_range_and_level_witness :
    3 ≤ (RiskApi.get_risk_score (fun _ => 0) "SUP-9999").overall_risk_score ∧
    (RiskApi.get_risk_score (fun _ => 0) "SUP-9999").overall_risk_score ≤ 79 / 10 ∧
    (∃ m : ℕ, (RiskApi.get_risk_score (fun _ => 0) "SUP-9999").overall_risk_score =
      (m : ℚ) / 10) ∧
    ((RiskApi.get_risk_score (fun _ => 0) "SUP-9999").risk_level = "Medium" ∨
     (RiskApi.get_risk_score (fun _ => 0) "SUP-9999").risk_level = "High" ∨
     (RiskApi.get_risk_score (fun _ => 0) "SUP-9999").risk_level = "Critical") ∧
    (RiskApi.get_risk_score (fun _ => 0) "SUP-9999").risk_level ≠ "Low" :=
  risk_fallback_range_and_level (fun _ => 0) "SUP-9999" rfl

/-- Counterexample for C8: the exact-equality reading of the status
filter is false.  For the query `status=active`, `list_suppliers` returns
all five stored suppliers (their status `Active` matches case-insensitively),
which differs from the set of stored records whose status field equals the
query value (none do). -/
theorem mock_status_filter_not_exact_equality :
    ¬ (MockApi.list_suppliers (some "active") none =
        MockApi.suppliers_list.filter (fun s => s.status == "active")) := by
  decide

/-- C8 (amended): each list endpoint returns exactly the stored records
accepted by every provided filter, where status-like filters compare
case-insensitively (lowercased equality, not plain equality), the
`requester` and `supplier_name` filters test lowercased substring
containment, and the id-keyed filters (`supplier_id`, `po_number`,
`rfp_id`) use exact equality; absent or empty filters impose no
constraint. -/
theorem mock_list_filters_characterization
    (status category requester supplier_id po_number supplier_name rfp_id :
      Option String) (d1 d2 : String) :
    MockApi.list_suppliers status category =
      MockApi.suppliers_list.filter (fun s =>
        MockApi.optCiEq category s.category && MockApi.optCiEq status s.status) ∧
    MockApi.list_purchase_orders status supplier_id =
      MockApi.purchase_orders_list.filter (fun o =>
        MockApi.optExact supplier_id o.supplier_id && MockApi.optCiEq status o.status) ∧
    MockApi.list_requisitions status requester =
      MockApi.requisitions_list.filter (fun r =>
        MockApi.optCiSub requester r.requester && MockApi.optCiEq status r.status) ∧
    MockApi.list_invoices status po_number =
      MockApi.invoices_list.filter (fun i =>
        MockApi.optExact po_number i.po_number && MockApi.optCiEq status i.status) ∧
    MockApi.list_contracts status supplier_name =
      MockApi.contracts_list.filter (fun c =>
        MockApi.optCiSub supplier_name c.supplier_name &&
          MockApi.optCiEq status c.status) ∧
    MockApi.list_proposals rfp_id supplier_id status =
      MockApi.proposals_list.filter (fun p =>
        MockApi.optCiEq status p.status &&
          (MockApi.optExact supplier_id p.supplier_id &&
            MockApi.optExact rfp_id p.rfp_id)) ∧
    MockApi.list_rfps d1 d2 status =
      (MockApi.rfps_list d1 d2).filter (fun r => MockApi.optCiEq status r.status) := by
  refine ⟨?_, ?_, ?_, ?_, ?_, ?_, ?_⟩
  · cases h1 : MockApi.truthy status <;> cases h2 : MockApi.truthy category <;>
      simp [MockApi.list_suppliers, MockApi.optCiEq, h1, h2, List.filter_filter,
        List.filter_true]
  · cases h1 : MockApi.truthy status <;> cases h2 : MockApi.truthy supplier_id <;>
      simp [MockApi.list_purchase_orders, MockApi.optCiEq, MockApi.optExact,
        h1, h2, List.filter_filter, List.filter_true]
  · cases h1 : MockApi.truthy status <;> cases h2 : MockApi.truthy requester <;>
      simp [MockApi.list_requisitions, MockApi.optCiEq, MockApi.optCiSub,
        h1, h2, List.filter_filter, List.filter_true]
  · cases h1 : MockApi.truthy status <;> cases h2 : MockApi.truthy po_number <;>
      simp [MockApi.list_invoices, MockApi.optCiEq, MockApi.optExact,
        h1, h2, List.filter_filter, List.filter_true]
  · cases h1 : MockApi.truthy status <;> cases h2 : MockApi.truthy supplier_name <;>
      simp [MockApi.list_contracts, MockApi.optCiEq, MockApi.optCiSub,
        h1, h2, List.filter_filter, List.filter_true]
  · cases h1 : MockApi.truthy rfp_id <;> cases h2 : MockApi.truthy supplier_id <;>
      cases h3 : MockApi.truthy status <;>
      simp [MockApi.list_proposals, MockApi.optCiEq, MockApi.optExact,
        h1, h2, h3, List.filter_filter, List.filter_true]
  · cases h1 : MockApi.truthy status <;>
      simp [MockApi.list_rfps, MockApi.optCiEq, h1, List.filter_true]

/-- C9: every detail endpoint of the procurement provider returns HTTP 404
with a JSON body of exactly the shape
an error object whose message names the entity and the id, for an id absent from its table,
and the stored record with status 200 for a present id. -/
theorem mock_detail_endpoints_not_found_shape (id d1 d2 : String) :
    (MockApi.suppliers_db.lookup id = none →
      MockApi.get_supplier id = (404, Json.obj [("error",
        Json.str ("Supplier \x27" ++ id ++ "\x27 not found"))])) ∧
    (∀ s, MockApi.suppliers_db.lookup id = some s →
      MockApi.get_supplier id = (200, s.toJson)) ∧
    (MockApi.purchase_orders_db.lookup id = none →
      MockApi.get_purchase_order id = (404, Json.obj [("error",
        Json.str ("Purchase order \x27" ++ id ++ "\x27 not found"))])) ∧
    (∀ o, MockApi.purchase_orders_db.lookup id = some o →
      MockApi.get_purchase_order id = (200, o.toJson)) ∧
    (MockApi.requisitions_db.lookup id = none →
      MockApi.get_requisition id = (404, Json.obj [("error",
        Json.str ("Requisition \x27" ++ id ++ "\x27 not found"))])) ∧
    (∀ r, MockApi.requisitions_db.lookup id = some r →
      MockApi.get_requisition id = (200, r.toJson)) ∧
    (MockApi.invoices_db.lookup id = none →
      MockApi.get_invoice id = (404, Json.obj [("error",
        Json.str ("Invoice \x27" ++ id ++ "\x27 not found"))])) ∧
    (∀ i, MockApi.invoices_db.lookup id = some i →
      MockApi.get_invoice id = (200, i.toJson)) ∧
    (MockApi.contracts_db.lookup id = none →
      MockApi.get_contract id = (404, Json.obj [("error",
        Json.str ("Contract \x27" ++ id ++ "\x27 not found"))])) ∧
    (∀ c, MockApi.contracts_db.lookup id = some c →
      MockApi.get_contract id = (200, c.toJson)) ∧
    (MockApi.proposals_db.lookup id = none →
      MockApi.get_proposal id = (404, Json.obj [("error",
        Json.str ("Proposal \x27" ++ id ++ "\x27 not found"))])) ∧
    (∀ p, MockApi.proposals_db.lookup id = some p →
      MockApi.get_proposal id = (200, p.toJson)) ∧
    ((MockApi.rfps_db d1 d2).lookup id = none →
      MockApi.get_rfp d1 d2 id = (404, Json.obj [("error",
        Json.str ("RFP \x27" ++ id ++ "\x27 not found"))])) ∧
    (∀ r, (MockApi.rfps_db d1 d2).lookup id = some r →
      MockApi.get_rfp d1 d2 id = (200, r.toJson)) := by
  refine ⟨?_, ?_, ?_, ?_, ?_, ?_, ?_, ?_, ?_, ?_, ?_, ?_, ?_, ?_⟩
  · intro h
    simp [MockApi.get_supplier, h]
  · intro s h
    simp [MockApi.get_supplier, h]
  · intro h
    simp [MockApi.get_purchase_order, h]
  · intro o h
    simp [MockApi.get_purchase_order, h]
  · intro h
    simp [MockApi.get_requisition, h]
  · intro r h
    simp [MockApi.get_requisition, h]
  · intro h
    simp [MockApi.get_invoice, h]
  · intro i h
    simp [MockApi.get_invoice, h]
  · intro h
    simp [MockApi.get_contract, h]
  · intro c h
    simp [MockApi.get_contract, h]
  · intro h
    simp [MockApi.get_proposal, h]
  · intro p h
    simp [MockApi.get_proposal, h]
  · intro h
    simp [MockApi.get_rfp, h]
  · intro r h
    simp [MockApi.get_rfp, h]

/-- Witness for C9: the absent id `SUP-9999` yields the 404 error object,
and the present id `SUP-1000` yields the stored record with 200. -/
theorem mock_detail_endpoints_not_found_shape_witness :
    MockApi.get_supplier "SUP-9999" = (404, Json.obj [("error",
      Json.str "Supplier \x27SUP-9999\x27 not found")]) ∧
    MockApi.get_supplier "SUP-1000" = (200, MockApi.sup1000.toJson) :=
  ⟨(mock_detail_endpoints_not_found_shape "SUP-9999" "" "").1 rfl,
   (mock_detail_endpoints_not_found_shape "SUP-1000" "" "").2.1 MockApi.sup1000 rfl⟩
